import Mathlib

/-!
Verification development for the black-oil local residual assembler
(`BlackOilLocalResidualTPFA`, file blackoillocalresidualtpfa.hh) and the
black-oil primary-variable switching logic (`BlackOilPrimaryVariables`).

The embedding works over exact rationals.  The automatic-differentiation
"Evaluation" scalar of the source is modelled as a dual number `Eval`
(value plus one derivative component); `Toolbox::value` / `decay` becomes
projection to `Eval.val`, and C++ comparisons between Evaluations compare
values.  External collaborators (the PVT oracle, the material-law oracle,
the extensive-quantities pressure-difference helper and the problem
object) are passed in as explicit function parameters, mirroring the
interfaces the source consumes.
-/

namespace OpmVerify

/-- Fluid phases of the black-oil model. -/
inductive Phase
  | water
  | oil
  | gas
deriving DecidableEq

instance : Fintype Phase :=
  ⟨⟨{Phase.water, Phase.oil, Phase.gas}, by decide⟩, by intro p; cases p <;> decide⟩

/-- Pseudo-components (conservation-equation slots) of the black-oil model. -/
inductive Comp
  | water
  | oil
  | gas
deriving DecidableEq

instance : Fintype Comp :=
  ⟨⟨{Comp.water, Comp.oil, Comp.gas}, by decide⟩, by intro c; cases c <;> decide⟩

/-- `FluidSystem::solventComponentIndex`: the main component carried by a phase. -/
def solventComponentIndex : Phase → Comp
  | .water => .water
  | .oil => .oil
  | .gas => .gas

/-- The phase whose reference density converts a component slot from surface
volume to mass (water component ↔ water phase, etc.). -/
def phaseOfComp : Comp → Phase
  | .water => .water
  | .oil => .oil
  | .gas => .gas

/-- Dual number modelling the source's automatic-differentiation `Evaluation`
type: a value and one representative derivative component. -/
structure Eval where
  val : ℚ
  der : ℚ
deriving DecidableEq

theorem Eval.ext {a b : Eval} (h1 : a.val = b.val) (h2 : a.der = b.der) : a = b := by
  cases a; cases b; simp_all

instance : Zero Eval := ⟨⟨0, 0⟩⟩

instance : Add Eval := ⟨fun a b => ⟨a.val + b.val, a.der + b.der⟩⟩

instance : Neg Eval := ⟨fun a => ⟨-a.val, -a.der⟩⟩

instance : Mul Eval := ⟨fun a b => ⟨a.val * b.val, a.val * b.der + a.der * b.val⟩⟩

/-- Embedding of a plain scalar into the dual numbers (derivative zero). -/
def Eval.const (q : ℚ) : Eval := ⟨q, 0⟩

/-- Multiplication of a dual number by a plain scalar. -/
def Eval.scale (a : Eval) (s : ℚ) : Eval := ⟨a.val * s, a.der * s⟩

@[simp] theorem Eval.val_zero : (0 : Eval).val = 0 := rfl

@[simp] theorem Eval.der_zero : (0 : Eval).der = 0 := rfl

@[simp] theorem Eval.val_add (a b : Eval) : (a + b).val = a.val + b.val := rfl

@[simp] theorem Eval.der_add (a b : Eval) : (a + b).der = a.der + b.der := rfl

@[simp] theorem Eval.val_mul (a b : Eval) : (a * b).val = a.val * b.val := rfl

@[simp] theorem Eval.der_mul (a b : Eval) : (a * b).der = a.val * b.der + a.der * b.val := rfl

@[simp] theorem Eval.val_neg (a : Eval) : (-a).val = -a.val := rfl

@[simp] theorem Eval.val_const (q : ℚ) : (Eval.const q).val = q := rfl

@[simp] theorem Eval.der_const (q : ℚ) : (Eval.const q).der = 0 := rfl

@[simp] theorem Eval.val_scale (a : Eval) (s : ℚ) : (a.scale s).val = a.val * s := rfl

@[simp] theorem Eval.der_scale (a : Eval) (s : ℚ) : (a.scale s).der = a.der * s := rfl

/-- Conservation-equation vector with rational (decayed) entries, one slot per
mass pseudo-component, as used by `computeStorage`. -/
structure EqVecQ where
  w : ℚ
  o : ℚ
  g : ℚ
deriving DecidableEq

/-- Conservation-equation vector with dual-number entries (`RateVector`). -/
structure EqVecE where
  w : Eval
  o : Eval
  g : Eval
deriving DecidableEq

def EqVecQ.zero : EqVecQ := ⟨0, 0, 0⟩

def EqVecE.zero : EqVecE := ⟨0, 0, 0⟩

def EqVecQ.get : EqVecQ → Comp → ℚ
  | v, .water => v.w
  | v, .oil => v.o
  | v, .gas => v.g

def EqVecE.get : EqVecE → Comp → Eval
  | v, .water => v.w
  | v, .oil => v.o
  | v, .gas => v.g

/-- Overwrite one slot (C++ `container[idx] = x`). -/
def EqVecQ.setAt (v : EqVecQ) (c : Comp) (x : ℚ) : EqVecQ :=
  match c with
  | .water => { v with w := x }
  | .oil => { v with o := x }
  | .gas => { v with g := x }

/-- Accumulate into one slot (C++ `container[idx] += x`). -/
def EqVecQ.addAt (v : EqVecQ) (c : Comp) (x : ℚ) : EqVecQ :=
  match c with
  | .water => { v with w := v.w + x }
  | .oil => { v with o := v.o + x }
  | .gas => { v with g := v.g + x }

/-- Accumulate into one slot of a dual-number vector. -/
def EqVecE.addAt (v : EqVecE) (c : Comp) (x : Eval) : EqVecE :=
  match c with
  | .water => { v with w := v.w + x }
  | .oil => { v with o := v.o + x }
  | .gas => { v with g := v.g + x }

/-! ## Local residual assembler: data model

Mirrors the `BlackOilFluidState` / `IntensiveQuantities` interfaces the
assembler consumes (blackoillocalresidualtpfa.hh).  All fluid-state
quantities are dual numbers; the PVT region index selects the parameter
set. -/

/-- Per-cell fluid state as consumed by the assembler. -/
structure FluidState where
  pressure : Phase → Eval
  saturation : Phase → Eval
  invB : Phase → Eval
  Rs : Eval
  Rsw : Eval
  Rv : Eval
  Rvw : Eval

/-- Per-cell intensive quantities (read-only input of the assembler). -/
structure IntensiveQuantities where
  fluidState : FluidState
  porosity : Eval
  pvtRegionIndex : ℕ
  mobility : Phase → Eval
  rockCompTransMultiplier : Eval

/-- Compile-time/FluidSystem configuration of the residual assembler.  The
optional-physics modules (solvent, extbo, polymer, energy, foam, brine,
diffusion, MICP) are compiled out in this TPFA residual (`static_assert`s in
`calculateFluxes_`), so they are not part of the configuration. -/
structure ResCfg where
  phaseActive : Phase → Bool
  enableDissolvedGas : Bool
  enableDissolvedGasInWater : Bool
  enableVaporizedOil : Bool
  enableVaporizedWater : Bool
  blackoilConserveSurfaceVolume : Bool
  waterEnabled : Bool
  oilEnabled : Bool
  gasEnabled : Bool
  referenceDensity : Phase → ℕ → ℚ

/-- `getInvB_<FluidSystem, FluidState, UpEval>`: the inverse formation volume
factor of a phase, kept with full derivatives (`UpEval = Evaluation`,
`useFull = true`) or decayed to a plain scalar (`UpEval = Scalar`). -/
def getInvB (useFull : Bool) (fs : FluidState) (p : Phase) : Eval :=
  if useFull then fs.invB p else Eval.const (fs.invB p).val

/-- `BlackOil::getRs_` with the `UpEval` distinction. -/
def getRs (useFull : Bool) (fs : FluidState) : Eval :=
  if useFull then fs.Rs else Eval.const fs.Rs.val

/-- `BlackOil::getRsw_` with the `UpEval` distinction. -/
def getRsw (useFull : Bool) (fs : FluidState) : Eval :=
  if useFull then fs.Rsw else Eval.const fs.Rsw.val

/-- `BlackOil::getRv_` with the `UpEval` distinction. -/
def getRv (useFull : Bool) (fs : FluidState) : Eval :=
  if useFull then fs.Rv else Eval.const fs.Rv.val

/-- `BlackOil::getRvw_` with the `UpEval` distinction. -/
def getRvw (useFull : Bool) (fs : FluidState) : Eval :=
  if useFull then fs.Rvw else Eval.const fs.Rvw.val

/-! ## computeStorage (blackoillocalresidualtpfa.hh lines 124-199) -/

/-- The per-phase "surface volume" term
`decay(S_phase) * decay(invB_phase) * decay(porosity)` with `LhsEval = Scalar`
(fully decayed values). -/
def surfaceVolume (iq : IntensiveQuantities) (p : Phase) : ℚ :=
  (iq.fluidState.saturation p).val * (iq.fluidState.invB p).val * iq.porosity.val

/-- One iteration of the phase loop of `computeStorage`: skip inactive phases,
add the surface volume into the phase's component slot, then the dissolved /
vaporized cross terms. -/
def storagePhaseStep (cfg : ResCfg) (iq : IntensiveQuantities) (st : EqVecQ)
    (p : Phase) : EqVecQ :=
  if cfg.phaseActive p = false then st
  else
    let sv := surfaceVolume iq p
    let st1 := st.addAt (solventComponentIndex p) sv
    let st2 := if p = Phase.oil ∧ cfg.enableDissolvedGas = true then
                 st1.addAt Comp.gas (iq.fluidState.Rs.val * sv)
               else st1
    let st3 := if p = Phase.water ∧ cfg.enableDissolvedGasInWater = true then
                 st2.addAt Comp.gas (iq.fluidState.Rsw.val * sv)
               else st2
    let st4 := if p = Phase.gas ∧ cfg.enableVaporizedOil = true then
                 st3.addAt Comp.oil (iq.fluidState.Rv.val * sv)
               else st3
    let st5 := if p = Phase.gas ∧ cfg.enableVaporizedWater = true then
                 st4.addAt Comp.water (iq.fluidState.Rvw.val * sv)
               else st4
    st5

/-- `adaptMassConservationQuantities_` on a decayed (`Scalar`) container: a
no-op when the model conserves surface volume, otherwise each structurally
enabled phase's component slot is multiplied by that phase's reference
density. -/
def adaptMassConservationQuantitiesQ (cfg : ResCfg) (container : EqVecQ)
    (pvtRegionIdx : ℕ) : EqVecQ :=
  if cfg.blackoilConserveSurfaceVolume then container
  else
    let c1 := if cfg.waterEnabled then
                container.setAt Comp.water
                  (container.get Comp.water * cfg.referenceDensity Phase.water pvtRegionIdx)
              else container
    let c2 := if cfg.gasEnabled then
                c1.setAt Comp.gas
                  (c1.get Comp.gas * cfg.referenceDensity Phase.gas pvtRegionIdx)
              else c1
    let c3 := if cfg.oilEnabled then
                c2.setAt Comp.oil
                  (c2.get Comp.oil * cfg.referenceDensity Phase.oil pvtRegionIdx)
              else c2
    c3

/-- `computeStorage` over decayed values: the phase loop (water, oil, gas in
canonical index order) followed by the mass-conservation adaptation.  The
optional-physics `addStorage` hooks are compiled out here. -/
def computeStorage (cfg : ResCfg) (iq : IntensiveQuantities) : EqVecQ :=
  let st0 := EqVecQ.zero
  let st1 := storagePhaseStep cfg iq st0 Phase.water
  let st2 := storagePhaseStep cfg iq st1 Phase.oil
  let st3 := storagePhaseStep cfg iq st2 Phase.gas
  adaptMassConservationQuantitiesQ cfg st3 iq.pvtRegionIndex

/-! Claim-side storage description (written from the spec sentence, to be
compared against `computeStorage`). -/

/-- Structural enabledness of the phase carrying a component slot
(`Indices::waterEnabled`, `gasEnabled`, `oilEnabled`). -/
def compEnabled (cfg : ResCfg) : Comp → Bool
  | .water => cfg.waterEnabled
  | .oil => cfg.oilEnabled
  | .gas => cfg.gasEnabled

/-- The storage a slot should receive per the specification: every active
phase contributes `S*invB*porosity` to its own slot; enabled dissolution /
vaporization options add `Rs`, `Rsw`, `Rv`, `Rvw` times the corresponding
surface-volume term into the gas / gas / oil / water slots; finally, when the
model conserves mass instead of surface volume, each enabled phase's slot is
scaled by the phase's reference (surface) density. -/
def storageClaim (cfg : ResCfg) (iq : IntensiveQuantities) (c : Comp) : ℚ :=
  let base : ℚ :=
    match c with
    | .water =>
        (if cfg.phaseActive Phase.water = true then surfaceVolume iq Phase.water else 0)
        + (if cfg.phaseActive Phase.gas = true ∧ cfg.enableVaporizedWater = true then
             iq.fluidState.Rvw.val * surfaceVolume iq Phase.gas else 0)
    | .oil =>
        (if cfg.phaseActive Phase.oil = true then surfaceVolume iq Phase.oil else 0)
        + (if cfg.phaseActive Phase.gas = true ∧ cfg.enableVaporizedOil = true then
             iq.fluidState.Rv.val * surfaceVolume iq Phase.gas else 0)
    | .gas =>
        (if cfg.phaseActive Phase.gas = true then surfaceVolume iq Phase.gas else 0)
        + (if cfg.phaseActive Phase.oil = true ∧ cfg.enableDissolvedGas = true then
             iq.fluidState.Rs.val * surfaceVolume iq Phase.oil else 0)
        + (if cfg.phaseActive Phase.water = true ∧ cfg.enableDissolvedGasInWater = true then
             iq.fluidState.Rsw.val * surfaceVolume iq Phase.water else 0)
  if cfg.blackoilConserveSurfaceVolume then base
  else if compEnabled cfg c = true then
    base * cfg.referenceDensity (phaseOfComp c) iq.pvtRegionIndex
  else base

/-- What one iteration of the storage phase loop adds to slot `c`. -/
def storageContrib (cfg : ResCfg) (iq : IntensiveQuantities) (p : Phase) (c : Comp) : ℚ :=
  if cfg.phaseActive p = false then 0
  else
    match p, c with
    | .water, .water => surfaceVolume iq Phase.water
    | .water, .oil => 0
    | .water, .gas =>
        if cfg.enableDissolvedGasInWater = true then
          iq.fluidState.Rsw.val * surfaceVolume iq Phase.water
        else 0
    | .oil, .water => 0
    | .oil, .oil => surfaceVolume iq Phase.oil
    | .oil, .gas =>
        if cfg.enableDissolvedGas = true then
          iq.fluidState.Rs.val * surfaceVolume iq Phase.oil
        else 0
    | .gas, .water =>
        if cfg.enableVaporizedWater = true then
          iq.fluidState.Rvw.val * surfaceVolume iq Phase.gas
        else 0
    | .gas, .oil =>
        if cfg.enableVaporizedOil = true then
          iq.fluidState.Rv.val * surfaceVolume iq Phase.gas
        else 0
    | .gas, .gas => surfaceVolume iq Phase.gas

theorem storagePhaseStep_get (cfg : ResCfg) (iq : IntensiveQuantities) (st : EqVecQ)
    (p : Phase) (c : Comp) :
    (storagePhaseStep cfg iq st p).get c = st.get c + storageContrib cfg iq p c := by
  cases p <;> cases c <;>
    simp [storagePhaseStep, storageContrib, solventComponentIndex, EqVecQ.get, EqVecQ.addAt] <;>
    split_ifs <;> simp [EqVecQ.get, EqVecQ.addAt]

theorem adaptMassQ_get (cfg : ResCfg) (v : EqVecQ) (r : ℕ) (c : Comp) :
    (adaptMassConservationQuantitiesQ cfg v r).get c =
      if cfg.blackoilConserveSurfaceVolume then v.get c
      else if compEnabled cfg c = true then
        v.get c * cfg.referenceDensity (phaseOfComp c) r
      else v.get c := by
  cases c <;>
    simp [adaptMassConservationQuantitiesQ, phaseOfComp, compEnabled, EqVecQ.get, EqVecQ.setAt] <;>
    split_ifs <;> simp [EqVecQ.get, EqVecQ.setAt]

set_option maxHeartbeats 2000000 in
/-- C1. For every active fluid phase, `computeStorage` adds
`S_phase * invB_phase * porosity` into that phase's component equation slot;
enabled dissolved-gas-in-oil / dissolved-gas-in-water / vaporized-oil /
vaporized-water options additionally add `Rs` / `Rsw` / `Rv` / `Rvw` times the
same surface-volume term into the gas / gas / oil / water component slots; and
when the model conserves mass rather than surface volume, each enabled phase's
slot is afterwards multiplied by that phase's reference (surface) density. -/
theorem computeStorage_matches_spec (cfg : ResCfg) (iq : IntensiveQuantities) (c : Comp) :
    (computeStorage cfg iq).get c = storageClaim cfg iq c := by
  have hz : EqVecQ.zero.get c = 0 := by cases c <;> rfl
  have h1 : computeStorage cfg iq =
      adaptMassConservationQuantitiesQ cfg
        (storagePhaseStep cfg iq
          (storagePhaseStep cfg iq (storagePhaseStep cfg iq EqVecQ.zero Phase.water) Phase.oil)
          Phase.gas) iq.pvtRegionIndex := rfl
  rw [h1, adaptMassQ_get]
  simp only [storagePhaseStep_get, hz, zero_add]
  clear h1 hz
  cases c <;> simp only [storageClaim, storageContrib] <;> split_ifs <;>
    try simp_all [-mul_eq_mul_right_iff]
  all_goals
    first
    | tauto
    | ring

/-! ## computeFlux / calculateFluxes_ (blackoillocalresidualtpfa.hh lines 206-435) -/

theorem EqVecQ.get_setAt (v : EqVecQ) (c : Comp) (x : ℚ) (d : Comp) :
    (v.setAt c x).get d = if c = d then x else v.get d := by
  cases c <;> cases d <;> simp [EqVecQ.setAt, EqVecQ.get]

theorem EqVecE.get_addAt (v : EqVecE) (c : Comp) (x : Eval) (d : Comp) :
    (v.addAt c x).get d = if c = d then v.get d + x else v.get d := by
  cases c <;> cases d <;> simp [EqVecE.addAt, EqVecE.get]

/-- `evalPhaseFluxes_` (surface-volume-flux overload, lines 620-679): fold a
phase's surface-volume flux into the component slots of the flux vector,
together with the dissolved-gas / vaporized-oil / vaporized-water cross terms,
multiplying by reference densities when the model conserves mass.  `useFull`
records whether `UpEval` is the Evaluation type (full derivatives of the
dissolution factors) or `Scalar` (decayed factors). -/
def evalPhaseFluxes (cfg : ResCfg) (useFull : Bool) (p : Phase) (pvtRegionIdx : ℕ)
    (surfaceVolumeFlux : Eval) (upFs : FluidState) (flux : EqVecE) : EqVecE :=
  let flux1 :=
    if cfg.blackoilConserveSurfaceVolume then
      flux.addAt (solventComponentIndex p) surfaceVolumeFlux
    else
      flux.addAt (solventComponentIndex p)
        (surfaceVolumeFlux * Eval.const (cfg.referenceDensity p pvtRegionIdx))
  if p = Phase.oil then
    if cfg.enableDissolvedGas then
      let rs := getRs useFull upFs
      if cfg.blackoilConserveSurfaceVolume then
        flux1.addAt Comp.gas (rs * surfaceVolumeFlux)
      else
        flux1.addAt Comp.gas
          (rs * surfaceVolumeFlux * Eval.const (cfg.referenceDensity Phase.gas pvtRegionIdx))
    else flux1
  else if p = Phase.water then
    if cfg.enableDissolvedGasInWater then
      let rsw := getRsw useFull upFs
      if cfg.blackoilConserveSurfaceVolume then
        flux1.addAt Comp.gas (rsw * surfaceVolumeFlux)
      else
        flux1.addAt Comp.gas
          (rsw * surfaceVolumeFlux * Eval.const (cfg.referenceDensity Phase.gas pvtRegionIdx))
    else flux1
  else
    let flux2 :=
      if cfg.enableVaporizedOil then
        let rv := getRv useFull upFs
        if cfg.blackoilConserveSurfaceVolume then
          flux1.addAt Comp.oil (rv * surfaceVolumeFlux)
        else
          flux1.addAt Comp.oil
            (rv * surfaceVolumeFlux * Eval.const (cfg.referenceDensity Phase.oil pvtRegionIdx))
      else flux1
    if cfg.enableVaporizedWater then
      let rvw := getRvw useFull upFs
      if cfg.blackoilConserveSurfaceVolume then
        flux2.addAt Comp.water (rvw * surfaceVolumeFlux)
      else
        flux2.addAt Comp.water
          (rvw * surfaceVolumeFlux * Eval.const (cfg.referenceDensity Phase.water pvtRegionIdx))
    else flux2

/-- The per-phase Darcy-flux expression of `calculateFluxes_` (lines 371-383):
zero on a vanishing pressure difference; otherwise the pressure difference
times the upwind mobility, the rock-compaction transmissibility multiplier and
`-trans/faceArea`, where the upwind factors keep their derivatives exactly
when the upwind cell's global index is the interior one. -/
def darcyFluxEval (upIn : Bool) (pdiff : Eval) (iqIn iqEx : IntensiveQuantities)
    (gIn gEx : ℕ) (p : Phase) (trans faceArea : ℚ) : Eval :=
  let up := if upIn then iqIn else iqEx
  let globalUpIndex := if upIn then gIn else gEx
  let transMult := up.rockCompTransMultiplier
  if pdiff.val = 0 then 0
  else if globalUpIndex = gIn then
    pdiff * up.mobility p * transMult * Eval.const (-trans / faceArea)
  else
    pdiff * Eval.const ((up.mobility p).val * transMult.val * (-trans / faceArea))

/-- Signature of `ExtensiveQuantities::calculatePhasePressureDiff_`.  Modelled
from the spec: the extensive-quantities collaborator is external (not under
src/); per the spec it yields the upwind/downwind choice (`true` when the
upwind cell is the interior one) and the gravity- and threshold-corrected
phase pressure difference, from the two cells' intensive quantities, volumes,
global indices, gravity-depth term and threshold pressure. -/
def CalcPPD : Type :=
  Phase → IntensiveQuantities → IntensiveQuantities → ℚ → ℚ → ℕ → ℕ → ℚ → ℚ → Bool × Eval

/-- Body of one iteration of the phase loop of `calculateFluxes_` once the
collaborator's upwind choice and pressure difference are at hand: evaluate the
Darcy flux, record it in the raw-Darcy vector, and fold the `invB`-converted
surface-volume flux into the flux vector, with full derivatives exactly when
the upwind cell's global index is the interior one. -/
def fluxPhaseStepCore (cfg : ResCfg) (upIn : Bool) (pdiff : Eval)
    (iqIn iqEx : IntensiveQuantities) (gIn gEx : ℕ) (trans faceArea : ℚ)
    (acc : EqVecE × EqVecQ) (p : Phase) : EqVecE × EqVecQ :=
  let up := if upIn then iqIn else iqEx
  let globalUpIndex := if upIn then gIn else gEx
  let darcyFlux := darcyFluxEval upIn pdiff iqIn iqEx gIn gEx p trans faceArea
  let darcy2 := acc.2.setAt (solventComponentIndex p) (darcyFlux.val * faceArea)
  let flux2 :=
    if globalUpIndex = gIn then
      evalPhaseFluxes cfg true p up.pvtRegionIndex
        (getInvB true up.fluidState p * darcyFlux) up.fluidState acc.1
    else
      evalPhaseFluxes cfg false p up.pvtRegionIndex
        (getInvB false up.fluidState p * darcyFlux) up.fluidState acc.1
  (flux2, darcy2)

/-- One iteration of the phase loop of `calculateFluxes_`: skip inactive
phases, otherwise delegate to the collaborator and the core step. -/
def fluxPhaseStep (cfg : ResCfg) (calcPPD : CalcPPD)
    (iqIn iqEx : IntensiveQuantities) (Vin Vex : ℚ) (gIn gEx : ℕ)
    (distZg thpres trans faceArea : ℚ)
    (acc : EqVecE × EqVecQ) (p : Phase) : EqVecE × EqVecQ :=
  if cfg.phaseActive p = false then acc
  else
    let r := calcPPD p iqIn iqEx Vin Vex gIn gEx distZg thpres
    fluxPhaseStepCore cfg r.1 r.2 iqIn iqEx gIn gEx trans faceArea acc p

/-- `calculateFluxes_`: the phase loop in canonical order (the optional-physics
per-face contributions are rejected at compile time by `static_assert`s, so
nothing is added after the loop). -/
def calculateFluxes (cfg : ResCfg) (calcPPD : CalcPPD)
    (iqIn iqEx : IntensiveQuantities) (Vin Vex : ℚ) (gIn gEx : ℕ)
    (distZg thpres trans faceArea : ℚ) : EqVecE × EqVecQ :=
  let acc0 := (EqVecE.zero, EqVecQ.zero)
  let acc1 := fluxPhaseStep cfg calcPPD iqIn iqEx Vin Vex gIn gEx distZg thpres trans faceArea
                acc0 Phase.water
  let acc2 := fluxPhaseStep cfg calcPPD iqIn iqEx Vin Vex gIn gEx distZg thpres trans faceArea
                acc1 Phase.oil
  fluxPhaseStep cfg calcPPD iqIn iqEx Vin Vex gIn gEx distZg thpres trans faceArea
    acc2 Phase.gas

/-- The problem collaborator consumed by `computeFlux` (volumes, threshold
pressures, gravity and cell-centre depths). -/
structure FlowProblem where
  dofTotalVolume : ℕ → ℚ
  thresholdPressure : ℕ → ℕ → ℚ
  gravLast : ℚ
  dofCenterDepth : ℕ → ℚ

/-- `computeFlux` (free-function overload, lines 206-255): gather volumes,
threshold pressure, gravity and depths from the problem and delegate to
`calculateFluxes_` with `distZ * g`. -/
def computeFlux (cfg : ResCfg) (calcPPD : CalcPPD) (prob : FlowProblem)
    (gIn gEx : ℕ) (iqIn iqEx : IntensiveQuantities) (trans faceArea : ℚ) :
    EqVecE × EqVecQ :=
  let vIn := prob.dofTotalVolume gIn
  let vEx := prob.dofTotalVolume gEx
  let thpres := prob.thresholdPressure gIn gEx
  let g := prob.gravLast
  let zIn := prob.dofCenterDepth gIn
  let zEx := prob.dofCenterDepth gEx
  let distZ := zIn - zEx
  calculateFluxes cfg calcPPD iqIn iqEx vIn vEx gIn gEx (distZ * g) thpres trans faceArea

theorem darcyFluxEval_val (upIn : Bool) (pdiff : Eval) (iqIn iqEx : IntensiveQuantities)
    (gIn gEx : ℕ) (p : Phase) (trans faceArea : ℚ) :
    (darcyFluxEval upIn pdiff iqIn iqEx gIn gEx p trans faceArea).val
      = pdiff.val * ((if upIn then iqIn else iqEx).mobility p).val
          * ((if upIn then iqIn else iqEx).rockCompTransMultiplier).val
          * (-trans / faceArea) := by
  simp only [darcyFluxEval]
  split_ifs <;> simp_all <;> ring

/-- Value-level coefficient with which a phase's surface-volume flux lands in
slot `c` inside `evalPhaseFluxes`. -/
def fluxCoeff (cfg : ResCfg) (p : Phase) (r : ℕ) (fs : FluidState) (c : Comp) : ℚ :=
  let dens : Phase → ℚ := fun q =>
    if cfg.blackoilConserveSurfaceVolume then 1 else cfg.referenceDensity q r
  match p, c with
  | .water, .water => dens Phase.water
  | .water, .oil => 0
  | .water, .gas => if cfg.enableDissolvedGasInWater then fs.Rsw.val * dens Phase.gas else 0
  | .oil, .water => 0
  | .oil, .oil => dens Phase.oil
  | .oil, .gas => if cfg.enableDissolvedGas then fs.Rs.val * dens Phase.gas else 0
  | .gas, .water => if cfg.enableVaporizedWater then fs.Rvw.val * dens Phase.water else 0
  | .gas, .oil => if cfg.enableVaporizedOil then fs.Rv.val * dens Phase.oil else 0
  | .gas, .gas => dens Phase.gas

theorem evalPhaseFluxes_get_val (cfg : ResCfg) (b : Bool) (p : Phase) (r : ℕ)
    (svf : Eval) (fs : FluidState) (flux : EqVecE) (c : Comp) :
    ((evalPhaseFluxes cfg b p r svf fs flux).get c).val
      = (flux.get c).val + svf.val * fluxCoeff cfg p r fs c := by
  cases p <;> cases c <;>
    simp [evalPhaseFluxes, fluxCoeff, solventComponentIndex, getRs, getRsw, getRv, getRvw,
      EqVecE.get_addAt] <;>
    split_ifs <;>
    simp [EqVecE.get_addAt] <;> ring

theorem fluxPhaseStepCore_antisym (cfg : ResCfg) (p : Phase) (trans faceArea : ℚ)
    (gA gB : ℕ) (hg : gA ≠ gB) (iqA iqB : IntensiveQuantities)
    (upF : Bool) (pdF pdB : Eval) (hpd : pdB.val = -pdF.val)
    (accF accB : EqVecE × EqVecQ)
    (hacc : ∀ c, ((accB.1.get c).val = -((accF.1.get c).val))
                 ∧ (accB.2.get c = -(accF.2.get c))) :
    ∀ c, (((fluxPhaseStepCore cfg (!upF) pdB iqB iqA gB gA trans faceArea accB p).1.get c).val
            = -(((fluxPhaseStepCore cfg upF pdF iqA iqB gA gB trans faceArea accF p).1.get c).val))
         ∧ ((fluxPhaseStepCore cfg (!upF) pdB iqB iqA gB gA trans faceArea accB p).2.get c
            = -((fluxPhaseStepCore cfg upF pdF iqA iqB gA gB trans faceArea accF p).2.get c)) := by
  intro c
  have hgs : ¬(gB = gA) := fun h => hg h.symm
  have hdF := darcyFluxEval_val upF pdF iqA iqB gA gB p trans faceArea
  have hdB := darcyFluxEval_val (!upF) pdB iqB iqA gB gA p trans faceArea
  cases upF
  case false =>
    simp only [Bool.not_false, Bool.false_eq_true, if_true, if_false] at hdF hdB
    simp only [fluxPhaseStepCore, Bool.not_false]
    simp only [if_true, if_false, Bool.false_eq_true, ite_true, ite_false, ite_self]
    rw [if_neg hgs]
    constructor
    · rw [evalPhaseFluxes_get_val, evalPhaseFluxes_get_val]
      simp only [getInvB, Eval.val_mul, Eval.val_const, Bool.false_eq_true, if_true, if_false, ite_true, ite_false]
      rw [hdB, hdF, hpd, (hacc c).1]
      ring
    · rw [EqVecQ.get_setAt, EqVecQ.get_setAt]
      split_ifs
      · rw [hdB, hdF, hpd]; ring
      · exact (hacc c).2
  case true =>
    simp only [Bool.not_true, Bool.false_eq_true, if_true, if_false] at hdF hdB
    simp only [fluxPhaseStepCore, Bool.not_true]
    simp only [if_true, if_false, Bool.false_eq_true, Bool.true_eq_false, ite_true, ite_false]
    rw [if_neg hg]
    constructor
    · rw [evalPhaseFluxes_get_val, evalPhaseFluxes_get_val]
      simp only [getInvB, Eval.val_mul, Eval.val_const, Bool.false_eq_true, if_true, if_false, ite_true, ite_false]
      rw [hdB, hdF, hpd, (hacc c).1]
      ring
    · rw [EqVecQ.get_setAt, EqVecQ.get_setAt]
      split_ifs
      · rw [hdB, hdF, hpd]; ring
      · exact (hacc c).2

theorem fluxPhaseStep_antisym (cfg : ResCfg) (calcPPD : CalcPPD)
    (iqA iqB : IntensiveQuantities) (VA VB : ℚ) (gA gB : ℕ)
    (dZf dZb thpf thpb trans faceArea : ℚ) (hg : gA ≠ gB) (p : Phase)
    (h1 : (calcPPD p iqB iqA VB VA gB gA dZb thpb).1
            = !(calcPPD p iqA iqB VA VB gA gB dZf thpf).1)
    (h2 : (calcPPD p iqB iqA VB VA gB gA dZb thpb).2.val
            = -((calcPPD p iqA iqB VA VB gA gB dZf thpf).2.val))
    (accF accB : EqVecE × EqVecQ)
    (hacc : ∀ c, ((accB.1.get c).val = -((accF.1.get c).val))
                 ∧ (accB.2.get c = -(accF.2.get c))) :
    ∀ c, (((fluxPhaseStep cfg calcPPD iqB iqA VB VA gB gA dZb thpb trans faceArea accB p).1.get c).val
            = -(((fluxPhaseStep cfg calcPPD iqA iqB VA VB gA gB dZf thpf trans faceArea accF p).1.get c).val))
         ∧ ((fluxPhaseStep cfg calcPPD iqB iqA VB VA gB gA dZb thpb trans faceArea accB p).2.get c
            = -((fluxPhaseStep cfg calcPPD iqA iqB VA VB gA gB dZf thpf trans faceArea accF p).2.get c)) := by
  intro c
  by_cases hap : cfg.phaseActive p = false
  · simp only [fluxPhaseStep, if_pos hap]
    exact hacc c
  · simp only [fluxPhaseStep, if_neg hap]
    rw [h1]
    exact fluxPhaseStepCore_antisym cfg p trans faceArea gA gB hg iqA iqB
      (calcPPD p iqA iqB VA VB gA gB dZf thpf).1
      (calcPPD p iqA iqB VA VB gA gB dZf thpf).2
      (calcPPD p iqB iqA VB VA gB gA dZb thpb).2 h2 accF accB hacc c

theorem calculateFluxes_antisym (cfg : ResCfg) (calcPPD : CalcPPD)
    (iqA iqB : IntensiveQuantities) (VA VB : ℚ) (gA gB : ℕ)
    (dZf dZb thpf thpb trans faceArea : ℚ) (hg : gA ≠ gB)
    (hanti : ∀ p : Phase,
      ((calcPPD p iqB iqA VB VA gB gA dZb thpb).1
         = !(calcPPD p iqA iqB VA VB gA gB dZf thpf).1)
      ∧ ((calcPPD p iqB iqA VB VA gB gA dZb thpb).2.val
         = -((calcPPD p iqA iqB VA VB gA gB dZf thpf).2.val))) :
    ∀ c, (((calculateFluxes cfg calcPPD iqB iqA VB VA gB gA dZb thpb trans faceArea).1.get c).val
            = -(((calculateFluxes cfg calcPPD iqA iqB VA VB gA gB dZf thpf trans faceArea).1.get c).val))
         ∧ ((calculateFluxes cfg calcPPD iqB iqA VB VA gB gA dZb thpb trans faceArea).2.get c
            = -((calculateFluxes cfg calcPPD iqA iqB VA VB gA gB dZf thpf trans faceArea).2.get c)) := by
  have hbase : ∀ c, (((EqVecE.zero, EqVecQ.zero) : EqVecE × EqVecQ).1.get c).val
        = -((((EqVecE.zero, EqVecQ.zero) : EqVecE × EqVecQ).1.get c).val)
      ∧ (((EqVecE.zero, EqVecQ.zero) : EqVecE × EqVecQ).2.get c
        = -(((EqVecE.zero, EqVecQ.zero) : EqVecE × EqVecQ).2.get c)) := by
    intro c
    cases c <;> constructor <;> simp [EqVecE.zero, EqVecQ.zero, EqVecE.get, EqVecQ.get]
  have s1 := fluxPhaseStep_antisym cfg calcPPD iqA iqB VA VB gA gB dZf dZb thpf thpb
    trans faceArea hg Phase.water (hanti Phase.water).1 (hanti Phase.water).2
    (EqVecE.zero, EqVecQ.zero) (EqVecE.zero, EqVecQ.zero) hbase
  have s2 := fluxPhaseStep_antisym cfg calcPPD iqA iqB VA VB gA gB dZf dZb thpf thpb
    trans faceArea hg Phase.oil (hanti Phase.oil).1 (hanti Phase.oil).2 _ _ s1
  have s3 := fluxPhaseStep_antisym cfg calcPPD iqA iqB VA VB gA gB dZf dZb thpf thpb
    trans faceArea hg Phase.gas (hanti Phase.gas).1 (hanti Phase.gas).2 _ _ s2
  exact s3

/-- C2. Conservation symmetry: for a face between cells A and B with the same
physical state, `computeFlux` with A interior and B exterior yields, for every
equation slot, the negated flux value (and negated raw Darcy flux) of the call
with B interior and A exterior, provided the pressure-difference collaborator
flips its upwind choice and negates its pressure difference under the swap. -/
theorem computeFlux_conservation_symmetry (cfg : ResCfg) (calcPPD : CalcPPD)
    (prob : FlowProblem) (gA gB : ℕ) (iqA iqB : IntensiveQuantities)
    (trans faceArea : ℚ)
    (hg : gA ≠ gB)
    (hanti : ∀ p : Phase,
      ((calcPPD p iqB iqA (prob.dofTotalVolume gB) (prob.dofTotalVolume gA) gB gA
          ((prob.dofCenterDepth gB - prob.dofCenterDepth gA) * prob.gravLast)
          (prob.thresholdPressure gB gA)).1
        = !(calcPPD p iqA iqB (prob.dofTotalVolume gA) (prob.dofTotalVolume gB) gA gB
          ((prob.dofCenterDepth gA - prob.dofCenterDepth gB) * prob.gravLast)
          (prob.thresholdPressure gA gB)).1)
      ∧ ((calcPPD p iqB iqA (prob.dofTotalVolume gB) (prob.dofTotalVolume gA) gB gA
          ((prob.dofCenterDepth gB - prob.dofCenterDepth gA) * prob.gravLast)
          (prob.thresholdPressure gB gA)).2.val
        = -((calcPPD p iqA iqB (prob.dofTotalVolume gA) (prob.dofTotalVolume gB) gA gB
          ((prob.dofCenterDepth gA - prob.dofCenterDepth gB) * prob.gravLast)
          (prob.thresholdPressure gA gB)).2.val))) :
    ∀ c : Comp,
      (((computeFlux cfg calcPPD prob gB gA iqB iqA trans faceArea).1.get c).val
        = -(((computeFlux cfg calcPPD prob gA gB iqA iqB trans faceArea).1.get c).val))
      ∧ ((computeFlux cfg calcPPD prob gB gA iqB iqA trans faceArea).2.get c
        = -((computeFlux cfg calcPPD prob gA gB iqA iqB trans faceArea).2.get c)) :=
  calculateFluxes_antisym cfg calcPPD iqA iqB
    (prob.dofTotalVolume gA) (prob.dofTotalVolume gB) gA gB
    ((prob.dofCenterDepth gA - prob.dofCenterDepth gB) * prob.gravLast)
    ((prob.dofCenterDepth gB - prob.dofCenterDepth gA) * prob.gravLast)
    (prob.thresholdPressure gA gB) (prob.thresholdPressure gB gA) trans faceArea hg hanti

/-- Concrete fluid state used by the flux witnesses. -/
def exFs : FluidState :=
  { pressure := fun _ => ⟨7, 0⟩
    saturation := fun _ => ⟨1, 0⟩
    invB := fun _ => ⟨2, 1⟩
    Rs := ⟨3, 1⟩
    Rsw := ⟨0, 0⟩
    Rv := ⟨0, 0⟩
    Rvw := ⟨0, 0⟩ }

/-- Concrete interior-cell intensive quantities for the flux witnesses. -/
def exIqA : IntensiveQuantities :=
  { fluidState := exFs
    porosity := ⟨1, 0⟩
    pvtRegionIndex := 0
    mobility := fun _ => ⟨3, 1⟩
    rockCompTransMultiplier := ⟨1, 0⟩ }

/-- Concrete exterior-cell intensive quantities for the flux witnesses. -/
def exIqB : IntensiveQuantities :=
  { fluidState := exFs
    porosity := ⟨1, 0⟩
    pvtRegionIndex := 0
    mobility := fun _ => ⟨4, 2⟩
    rockCompTransMultiplier := ⟨1, 0⟩ }

/-- Concrete residual configuration for the flux witnesses. -/
def exCfg : ResCfg :=
  { phaseActive := fun _ => true
    enableDissolvedGas := true
    enableDissolvedGasInWater := false
    enableVaporizedOil := false
    enableVaporizedWater := false
    blackoilConserveSurfaceVolume := true
    waterEnabled := true
    oilEnabled := true
    gasEnabled := true
    referenceDensity := fun _ _ => 1 }

/-- Concrete problem collaborator for the flux witnesses. -/
def exProb : FlowProblem :=
  { dofTotalVolume := fun _ => 1
    thresholdPressure := fun _ _ => 0
    gravLast := 0
    dofCenterDepth := fun _ => 0 }

/-- Concrete antisymmetric pressure-difference collaborator: cell 0 is always
upwind with pressure difference of value 5. -/
def exPpd : CalcPPD :=
  fun _ _ _ _ _ gIn _ _ _ => if gIn = 0 then (true, ⟨5, 2⟩) else (false, ⟨-5, 7⟩)

theorem computeFlux_conservation_symmetry_witness :
    ((0 : ℕ) ≠ 1)
    ∧ ((((computeFlux exCfg exPpd exProb 1 0 exIqB exIqA 2 1).1.get Comp.water).val
        = -(((computeFlux exCfg exPpd exProb 0 1 exIqA exIqB 2 1).1.get Comp.water).val))
      ∧ ((computeFlux exCfg exPpd exProb 1 0 exIqB exIqA 2 1).2.get Comp.water
        = -((computeFlux exCfg exPpd exProb 0 1 exIqA exIqB 2 1).2.get Comp.water))) :=
  ⟨by decide,
    computeFlux_conservation_symmetry exCfg exPpd exProb 0 1 exIqA exIqB 2 1
      (by decide) (by decide) Comp.water⟩

/-- The Darcy flux as the specification describes it: exactly zero when the
gravity- and threshold-corrected pressure difference is exactly zero;
otherwise the pressure difference times the upwind cell's mobility times the
rock-compaction transmissibility multiplier times `-transmissibility /
faceArea`, where the upwind quantities carry full derivatives when the upwind
cell is the interior cell and are taken as plain scalar values when the
upwind cell is the exterior cell. -/
def claimDarcyFlux (upIsInterior : Bool) (pdiff : Eval)
    (iqIn iqEx : IntensiveQuantities) (p : Phase) (trans faceArea : ℚ) : Eval :=
  let up := if upIsInterior then iqIn else iqEx
  if pdiff.val = 0 then 0
  else if upIsInterior then
    pdiff * (up.mobility p * (up.rockCompTransMultiplier * Eval.const (-trans / faceArea)))
  else
    Eval.scale pdiff
      ((up.mobility p).val * (up.rockCompTransMultiplier.val * (-trans / faceArea)))

theorem fluxPhaseStep_darcy_other (cfg : ResCfg) (calcPPD : CalcPPD)
    (iqIn iqEx : IntensiveQuantities) (Vin Vex : ℚ) (gIn gEx : ℕ)
    (distZg thpres trans faceArea : ℚ) (acc : EqVecE × EqVecQ) (q : Phase) (c : Comp)
    (hne : solventComponentIndex q ≠ c) :
    (fluxPhaseStep cfg calcPPD iqIn iqEx Vin Vex gIn gEx distZg thpres trans faceArea
        acc q).2.get c = acc.2.get c := by
  by_cases haq : cfg.phaseActive q = false <;>
    simp [fluxPhaseStep, fluxPhaseStepCore, haq, EqVecQ.get_setAt, hne]

theorem fluxPhaseStep_darcy_self (cfg : ResCfg) (calcPPD : CalcPPD)
    (iqIn iqEx : IntensiveQuantities) (Vin Vex : ℚ) (gIn gEx : ℕ)
    (distZg thpres trans faceArea : ℚ) (acc : EqVecE × EqVecQ) (p : Phase)
    (hact : cfg.phaseActive p = true) :
    (fluxPhaseStep cfg calcPPD iqIn iqEx Vin Vex gIn gEx distZg thpres trans faceArea
        acc p).2.get (solventComponentIndex p)
      = (darcyFluxEval (calcPPD p iqIn iqEx Vin Vex gIn gEx distZg thpres).1
          (calcPPD p iqIn iqEx Vin Vex gIn gEx distZg thpres).2
          iqIn iqEx gIn gEx p trans faceArea).val * faceArea := by
  simp [fluxPhaseStep, fluxPhaseStepCore, hact, EqVecQ.get_setAt]

/-- C3. For each active phase, the Darcy flux computed inside
`calculateFluxes_` is exactly the claim's description (`claimDarcyFlux`), and
its value times the face area is what lands in that phase's slot of the
raw-Darcy output vector. -/
theorem darcyFlux_matches_claim (cfg : ResCfg) (calcPPD : CalcPPD)
    (iqIn iqEx : IntensiveQuantities) (Vin Vex : ℚ) (gIn gEx : ℕ)
    (distZg thpres trans faceArea : ℚ) (p : Phase)
    (hg : gIn ≠ gEx) (hact : cfg.phaseActive p = true) :
    (darcyFluxEval (calcPPD p iqIn iqEx Vin Vex gIn gEx distZg thpres).1
        (calcPPD p iqIn iqEx Vin Vex gIn gEx distZg thpres).2
        iqIn iqEx gIn gEx p trans faceArea
      = claimDarcyFlux (calcPPD p iqIn iqEx Vin Vex gIn gEx distZg thpres).1
          (calcPPD p iqIn iqEx Vin Vex gIn gEx distZg thpres).2
          iqIn iqEx p trans faceArea)
    ∧ ((calculateFluxes cfg calcPPD iqIn iqEx Vin Vex gIn gEx distZg thpres trans
          faceArea).2.get (solventComponentIndex p)
        = (darcyFluxEval (calcPPD p iqIn iqEx Vin Vex gIn gEx distZg thpres).1
            (calcPPD p iqIn iqEx Vin Vex gIn gEx distZg thpres).2
            iqIn iqEx gIn gEx p trans faceArea).val * faceArea) := by
  constructor
  · rcases calcPPD p iqIn iqEx Vin Vex gIn gEx distZg thpres with ⟨upIn, pdiff⟩
    cases upIn
    · simp only [darcyFluxEval, claimDarcyFlux, Bool.false_eq_true, if_false, ite_false]
      split_ifs with h0 h1
      · rfl
      · exact absurd h1.symm hg
      · exact Eval.ext (by simp only [Eval.val_mul, Eval.val_const, Eval.val_scale]; ring) (by simp only [Eval.der_mul, Eval.der_const, Eval.der_scale, Eval.val_mul, Eval.val_const]; ring)
    · simp only [darcyFluxEval, claimDarcyFlux, if_true, ite_true]
      split_ifs with h0
      · rfl
      · exact Eval.ext (by simp only [Eval.val_mul, Eval.val_const, Eval.val_scale]; ring) (by simp only [Eval.der_mul, Eval.der_const, Eval.der_scale, Eval.val_mul, Eval.val_const]; ring)
  · have h1 : calculateFluxes cfg calcPPD iqIn iqEx Vin Vex gIn gEx distZg thpres trans faceArea
        = fluxPhaseStep cfg calcPPD iqIn iqEx Vin Vex gIn gEx distZg thpres trans faceArea
            (fluxPhaseStep cfg calcPPD iqIn iqEx Vin Vex gIn gEx distZg thpres trans faceArea
              (fluxPhaseStep cfg calcPPD iqIn iqEx Vin Vex gIn gEx distZg thpres trans faceArea
                (EqVecE.zero, EqVecQ.zero) Phase.water) Phase.oil) Phase.gas := rfl
    rw [h1]
    cases p
    · rw [fluxPhaseStep_darcy_other _ _ _ _ _ _ _ _ _ _ _ _ _ Phase.gas _ (by decide),
        fluxPhaseStep_darcy_other _ _ _ _ _ _ _ _ _ _ _ _ _ Phase.oil _ (by decide),
        fluxPhaseStep_darcy_self _ _ _ _ _ _ _ _ _ _ _ _ _ Phase.water hact]
    · rw [fluxPhaseStep_darcy_other _ _ _ _ _ _ _ _ _ _ _ _ _ Phase.gas _ (by decide),
        fluxPhaseStep_darcy_self _ _ _ _ _ _ _ _ _ _ _ _ _ Phase.oil hact]
    · rw [fluxPhaseStep_darcy_self _ _ _ _ _ _ _ _ _ _ _ _ _ Phase.gas hact]

theorem darcyFlux_matches_claim_witness :
    ((0 : ℕ) ≠ 1) ∧ (exCfg.phaseActive Phase.oil = true)
    ∧ ((darcyFluxEval (exPpd Phase.oil exIqA exIqB 1 1 0 1 0 0).1
          (exPpd Phase.oil exIqA exIqB 1 1 0 1 0 0).2 exIqA exIqB 0 1 Phase.oil 2 1
        = claimDarcyFlux (exPpd Phase.oil exIqA exIqB 1 1 0 1 0 0).1
            (exPpd Phase.oil exIqA exIqB 1 1 0 1 0 0).2 exIqA exIqB Phase.oil 2 1)
      ∧ ((calculateFluxes exCfg exPpd exIqA exIqB 1 1 0 1 0 0 2 1).2.get
            (solventComponentIndex Phase.oil)
          = (darcyFluxEval (exPpd Phase.oil exIqA exIqB 1 1 0 1 0 0).1
              (exPpd Phase.oil exIqA exIqB 1 1 0 1 0 0).2
              exIqA exIqB 0 1 Phase.oil 2 1).val * 1)) :=
  ⟨by decide, by decide,
    darcyFlux_matches_claim exCfg exPpd exIqA exIqB 1 1 0 1 0 0 2 1 Phase.oil
      (by decide) (by decide)⟩

/-! ## computeBoundaryFlux (blackoillocalresidualtpfa.hh lines 437-544) -/

/-- Overwrite one slot of a dual-number vector. -/
def EqVecE.setAt (v : EqVecE) (c : Comp) (x : Eval) : EqVecE :=
  match c with
  | .water => { v with w := x }
  | .oil => { v with o := x }
  | .gas => { v with g := x }

/-- Componentwise addition (the `bdyFlux[i] += tmp[i]` loop). -/
def vecAddE (a b : EqVecE) : EqVecE := ⟨a.w + b.w, a.o + b.o, a.g + b.g⟩

/-- `adaptMassConservationQuantities_` on an Evaluation container (the
template is generic in the scalar type). -/
def adaptMassConservationQuantitiesE (cfg : ResCfg) (container : EqVecE)
    (pvtRegionIdx : ℕ) : EqVecE :=
  if cfg.blackoilConserveSurfaceVolume then container
  else
    let c1 := if cfg.waterEnabled then
                container.setAt Comp.water
                  (container.get Comp.water
                    * Eval.const (cfg.referenceDensity Phase.water pvtRegionIdx))
              else container
    let c2 := if cfg.gasEnabled then
                c1.setAt Comp.gas
                  (c1.get Comp.gas * Eval.const (cfg.referenceDensity Phase.gas pvtRegionIdx))
              else c1
    let c3 := if cfg.oilEnabled then
                c2.setAt Comp.oil
                  (c2.get Comp.oil * Eval.const (cfg.referenceDensity Phase.oil pvtRegionIdx))
              else c2
    c3

/-- Boundary-condition types dispatched by `computeBoundaryFlux`.  `RATE`,
`FREE` and `DIRICHLET` are the ones handled by the source; `NONE` and
`THERMAL` model the remaining members of the repository's `BCType`
enumeration (declared outside src/), which reach the throwing branch. -/
inductive BCType
  | RATE
  | FREE
  | DIRICHLET
  | NONE
  | THERMAL
deriving DecidableEq

/-- The unrecoverable error thrown for an unknown boundary-condition type
(`std::logic_error` in the source). -/
inductive BCError
  | unknownBoundaryConditionType
deriving DecidableEq

/-- Externally supplied boundary fluid state (plain scalar values). -/
structure ScalarFluidState where
  pressure : Phase → ℚ
  invB : Phase → ℚ
  Rs : ℚ
  Rsw : ℚ
  Rv : ℚ
  Rvw : ℚ

/-- View a scalar fluid state as a derivative-free fluid state. -/
def ScalarFluidState.lift (fs : ScalarFluidState) : FluidState :=
  { pressure := fun p => Eval.const (fs.pressure p)
    saturation := fun _ => 0
    invB := fun p => Eval.const (fs.invB p)
    Rs := Eval.const fs.Rs
    Rsw := Eval.const fs.Rsw
    Rv := Eval.const fs.Rv
    Rvw := Eval.const fs.Rvw }

/-- Boundary-condition descriptor consumed by `computeBoundaryFlux`. -/
structure BoundaryConditionData where
  type : BCType
  massRate : EqVecE
  pvtRegionIdx : ℕ
  exFluidState : ScalarFluidState

/-- `computeBoundaryFluxRate`: the flux is directly the prescribed mass rate.
Modelled from the spec: `RateVector::setMassRate` is not under src/; per the
spec ("the flux is directly the prescribed mass rate"), it assigns the
prescribed rates. -/
def computeBoundaryFluxRate (bdyInfo : BoundaryConditionData) : EqVecE :=
  bdyInfo.massRate

/-- One phase of the advective loop of `computeBoundaryFluxFree` (the `tmp`
vector): inside-state `invB` with full derivatives on outflux
(`pBoundary < pInside`), boundary-state `invB` as a plain scalar on influx
(`pBoundary > pInside`), and nothing when the pressures are equal. -/
def boundaryPhaseTmp (cfg : ResCfg) (volumeFlux : Phase → Eval)
    (bdyInfo : BoundaryConditionData) (insideIntQuants : IntensiveQuantities)
    (p : Phase) : EqVecE :=
  if cfg.phaseActive p = false then EqVecE.zero
  else
    let pBoundary := bdyInfo.exFluidState.pressure p
    let pInside := insideIntQuants.fluidState.pressure p
    let pvtRegionIdx := insideIntQuants.pvtRegionIndex
    if pBoundary < pInside.val then
      evalPhaseFluxes cfg true p pvtRegionIdx
        (getInvB true insideIntQuants.fluidState p * volumeFlux p)
        insideIntQuants.fluidState EqVecE.zero
    else if pBoundary > pInside.val then
      evalPhaseFluxes cfg false p pvtRegionIdx
        (Eval.const (bdyInfo.exFluidState.invB p) * volumeFlux p)
        bdyInfo.exFluidState.lift EqVecE.zero
    else EqVecE.zero

/-- `computeBoundaryFluxFree` (lines 460-544): per-phase advective
contributions accumulated into the boundary flux, followed by the
mass-conservation adaptation.  The volume fluxes come from the external
`calculateBoundaryGradients_` collaborator, passed in as a parameter. -/
def computeBoundaryFluxFree (cfg : ResCfg) (volumeFlux : Phase → Eval)
    (bdyInfo : BoundaryConditionData) (insideIntQuants : IntensiveQuantities) : EqVecE :=
  let b1 := vecAddE EqVecE.zero (boundaryPhaseTmp cfg volumeFlux bdyInfo insideIntQuants Phase.water)
  let b2 := vecAddE b1 (boundaryPhaseTmp cfg volumeFlux bdyInfo insideIntQuants Phase.oil)
  let b3 := vecAddE b2 (boundaryPhaseTmp cfg volumeFlux bdyInfo insideIntQuants Phase.gas)
  adaptMassConservationQuantitiesE cfg b3 insideIntQuants.pvtRegionIndex

/-- `computeBoundaryFlux` (lines 437-451): dispatch on the boundary-condition
type; unknown types are an unrecoverable error. -/
def computeBoundaryFlux (cfg : ResCfg) (volumeFlux : Phase → Eval)
    (bdyInfo : BoundaryConditionData) (insideIntQuants : IntensiveQuantities) :
    Except BCError EqVecE :=
  if bdyInfo.type = BCType.RATE then
    Except.ok (computeBoundaryFluxRate bdyInfo)
  else if bdyInfo.type = BCType.FREE ∨ bdyInfo.type = BCType.DIRICHLET then
    Except.ok (computeBoundaryFluxFree cfg volumeFlux bdyInfo insideIntQuants)
  else
    Except.error BCError.unknownBoundaryConditionType

/-- Claim-side per-phase boundary contribution: zero when the boundary and
inside pressures are equal; the inside cell's `invB` (full derivatives) when
the boundary pressure is below the inside pressure; the boundary fluid
state's `invB` (value only) when it is above. -/
def claimBoundaryPhaseContrib (cfg : ResCfg) (volumeFlux : Phase → Eval)
    (bdyInfo : BoundaryConditionData) (insideIntQuants : IntensiveQuantities)
    (p : Phase) : EqVecE :=
  if cfg.phaseActive p = false then EqVecE.zero
  else
    let pBoundary := bdyInfo.exFluidState.pressure p
    let pInside := (insideIntQuants.fluidState.pressure p).val
    if pBoundary = pInside then EqVecE.zero
    else if pBoundary < pInside then
      evalPhaseFluxes cfg true p insideIntQuants.pvtRegionIndex
        (insideIntQuants.fluidState.invB p * volumeFlux p)
        insideIntQuants.fluidState EqVecE.zero
    else
      evalPhaseFluxes cfg false p insideIntQuants.pvtRegionIndex
        (Eval.const (bdyInfo.exFluidState.invB p) * volumeFlux p)
        bdyInfo.exFluidState.lift EqVecE.zero

/-- Claim-side FREE/DIRICHLET boundary flux: the three phase contributions,
then the mass-conservation adaptation. -/
def claimBoundaryFree (cfg : ResCfg) (volumeFlux : Phase → Eval)
    (bdyInfo : BoundaryConditionData) (insideIntQuants : IntensiveQuantities) : EqVecE :=
  let b1 := vecAddE EqVecE.zero
    (claimBoundaryPhaseContrib cfg volumeFlux bdyInfo insideIntQuants Phase.water)
  let b2 := vecAddE b1 (claimBoundaryPhaseContrib cfg volumeFlux bdyInfo insideIntQuants Phase.oil)
  let b3 := vecAddE b2 (claimBoundaryPhaseContrib cfg volumeFlux bdyInfo insideIntQuants Phase.gas)
  adaptMassConservationQuantitiesE cfg b3 insideIntQuants.pvtRegionIndex

theorem boundaryPhaseTmp_eq_claim (cfg : ResCfg) (volumeFlux : Phase → Eval)
    (bdyInfo : BoundaryConditionData) (insideIntQuants : IntensiveQuantities) (p : Phase) :
    boundaryPhaseTmp cfg volumeFlux bdyInfo insideIntQuants p
      = claimBoundaryPhaseContrib cfg volumeFlux bdyInfo insideIntQuants p := by
  simp only [boundaryPhaseTmp, claimBoundaryPhaseContrib, getInvB, if_true, ite_true]
  rcases lt_trichotomy (bdyInfo.exFluidState.pressure p)
    ((insideIntQuants.fluidState.pressure p).val) with hlt | heq | hgt
  · simp [hlt, ne_of_lt hlt, not_lt.mpr (le_of_lt hlt)]
  · simp [heq, lt_irrefl]
  · simp [hgt, not_lt.mpr (le_of_lt hgt), ne_of_gt hgt]

/-- C9. `computeBoundaryFlux` with a `RATE` boundary condition returns exactly
the prescribed mass rate; with `FREE` or `DIRICHLET` it returns the per-phase
contributions selected by the boundary/inside pressure comparison (inside
`invB` with derivatives on outflux, boundary `invB` value-only on influx,
zero on equal pressures) followed by the mass-conservation adaptation; any
other boundary-condition type is an unrecoverable error. -/
theorem computeBoundaryFlux_matches_claim (cfg : ResCfg) (volumeFlux : Phase → Eval)
    (bdyInfo : BoundaryConditionData) (insideIntQuants : IntensiveQuantities) :
    computeBoundaryFlux cfg volumeFlux bdyInfo insideIntQuants
      = match bdyInfo.type with
        | .RATE => Except.ok bdyInfo.massRate
        | .FREE => Except.ok (claimBoundaryFree cfg volumeFlux bdyInfo insideIntQuants)
        | .DIRICHLET => Except.ok (claimBoundaryFree cfg volumeFlux bdyInfo insideIntQuants)
        | _ => Except.error BCError.unknownBoundaryConditionType := by
  have hfree : computeBoundaryFluxFree cfg volumeFlux bdyInfo insideIntQuants
      = claimBoundaryFree cfg volumeFlux bdyInfo insideIntQuants := by
    simp only [computeBoundaryFluxFree, claimBoundaryFree, boundaryPhaseTmp_eq_claim]
  cases htype : bdyInfo.type <;>
    simp [computeBoundaryFlux, computeBoundaryFluxRate, htype, hfree]

/-! ## Black-oil primary variables (`BlackOilPrimaryVariables`)

Embedding of the switching state machine of `adaptPrimaryVariables` and of
`chopAndNormalizeSaturations`.  The PVT, material-law and problem
collaborators are supplied through `PvEnv` (for one fixed grid cell); the
compile-time feature toggles through `PvCfg`.  The C++ function-local static
`thresholdWaterFilledCell` is threaded explicitly as an `Option ℚ` value:
`none` before the first executed call, `some t` once initialized. -/

/-- Interpretations of the water switching slot. -/
inductive WaterMeaning
  | Sw
  | Rvw
  | Rsw
  | Disabled
deriving DecidableEq

/-- Interpretations of the pressure slot. -/
inductive PressureMeaning
  | Po
  | Pg
  | Pw
deriving DecidableEq

/-- Interpretations of the gas (composition) switching slot. -/
inductive GasMeaning
  | Sg
  | Rs
  | Rv
  | Disabled
deriving DecidableEq

/-- Interpretations of the brine slot. -/
inductive BrineMeaning
  | Cs
  | Sp
  | Disabled
deriving DecidableEq

/-- The per-cell primary-variable vector: raw slot values plus the meaning
tags and the PVT region index. -/
structure BlackOilPrimaryVariables where
  waterSlot : ℚ
  pressureSlot : ℚ
  compSlot : ℚ
  saltSlot : ℚ
  solventSlot : ℚ
  zSlot : ℚ
  wm : WaterMeaning
  pm : PressureMeaning
  gm : GasMeaning
  bm : BrineMeaning
  pvtRegionIdx : ℕ
deriving DecidableEq

/-- Compile-time feature toggles of the primary-variable state machine. -/
structure PvCfg where
  waterEnabled : Bool
  gasEnabled : Bool
  oilEnabled : Bool
  compositionSwitchEnabled : Bool
  enableSolvent : Bool
  enableExtbo : Bool
  enableSaltPrecipitation : Bool
  enableDissolvedGas : Bool
  enableDissolvedGasInWater : Bool
  enableVaporizedOil : Bool
  enableVaporizedWater : Bool

/-- External collaborators of `adaptPrimaryVariables` for one fixed cell: the
cell temperature, the material-law capillary pressures (arguments in source
order: oil, gas and water saturations), the PVT saturated-limit functions,
the extbo module and the problem-supplied per-cell maxima. -/
structure PvEnv where
  temperature : ℚ
  capillaryPressures : ℚ → ℚ → ℚ → Phase → ℚ
  satWaterVaporizationFactor : ℕ → ℚ → ℚ → ℚ → ℚ
  satGasDissolutionFactorWater : ℕ → ℚ → ℚ → ℚ → ℚ
  satGasDissolutionFactorOil : ℕ → ℚ → ℚ → ℚ → ℚ → ℚ
  satOilVaporizationFactor : ℕ → ℚ → ℚ → ℚ → ℚ → ℚ
  extboRs : ℕ → ℚ → ℚ → ℚ
  extboRv : ℕ → ℚ → ℚ → ℚ
  maxOilSaturation : ℚ
  maxGasDissolutionFactor : ℚ
  maxOilVaporizationFactor : ℚ
  saltSol : ℕ → ℚ

/-- `solventSaturation_()`: the solvent slot when the solvent extension is
enabled, zero otherwise. -/
def solventSaturation (cfg : PvCfg) (pv : BlackOilPrimaryVariables) : ℚ :=
  if cfg.enableSolvent then pv.solventSlot else 0

/-- `zFraction_()`: the extbo z-fraction slot when extbo is enabled. -/
def zFraction (cfg : PvCfg) (pv : BlackOilPrimaryVariables) : ℚ :=
  if cfg.enableExtbo then pv.zSlot else 0

/-- The salt block of `adaptPrimaryVariables` (lines 1092-1111): transitions
between precipitated-salt saturation and salt concentration, and the
`saltConcentration` local used by the later PVT lookups. -/
def brineStep (cfg : PvCfg) (env : PvEnv) (pv : BlackOilPrimaryVariables) (eps : ℚ) :
    BlackOilPrimaryVariables × ℚ :=
  if cfg.enableSaltPrecipitation then
    let saltSolubility := env.saltSol pv.pvtRegionIdx
    match pv.bm with
    | .Sp =>
        if pv.saltSlot < -eps then
          ({ pv with bm := BrineMeaning.Cs, saltSlot := saltSolubility }, saltSolubility)
        else (pv, saltSolubility)
    | .Cs =>
        let saltConcentration := pv.saltSlot
        if saltConcentration > saltSolubility + eps then
          ({ pv with bm := BrineMeaning.Sp, saltSlot := 0 }, saltConcentration)
        else (pv, saltConcentration)
    | .Disabled => (pv, 0)
  else (pv, 0)

/-- The water-meaning switch of `adaptPrimaryVariables` (lines 1142-1243).
`sw` and `sg` are the saturations read at entry; returns the updated state
and whether a meaning changed here. -/
def waterStep (cfg : PvCfg) (env : PvEnv) (pv : BlackOilPrimaryVariables)
    (sw sg saltConcentration eps : ℚ) : BlackOilPrimaryVariables × Bool :=
  match pv.wm with
  | .Sw =>
      if sw < -eps ∧ sg > eps ∧ cfg.enableVaporizedWater = true then
        let ssol := solventSaturation cfg pv
        let p0 := pv.pressureSlot
        let p :=
          if pv.pm = PressureMeaning.Po then
            let so := 1 - sg - ssol
            let pC := env.capillaryPressures so (sg + ssol) 0
            p0 + (pC Phase.gas - pC Phase.oil)
          else p0
        let rvwSat := env.satWaterVaporizationFactor pv.pvtRegionIdx env.temperature p
          saltConcentration
        ({ pv with wm := WaterMeaning.Rvw, waterSlot := rvwSat }, true)
      else if sg < -eps ∧ sw > eps ∧ cfg.enableDissolvedGasInWater = true then
        let ssol := solventSaturation cfg pv
        let pg := pv.pressureSlot
        let so := 1 - sw - ssol
        let pC := env.capillaryPressures so 0 sw
        let pw := pg + (pC Phase.water - pC Phase.gas)
        let rswSat := env.satGasDissolutionFactorWater pv.pvtRegionIdx env.temperature pw
          saltConcentration
        ({ pv with wm := WaterMeaning.Rsw, waterSlot := rswSat,
                   pm := PressureMeaning.Pw, pressureSlot := pw }, true)
      else (pv, false)
  | .Rvw =>
      let ssol := solventSaturation cfg pv
      let rvw := pv.waterSlot
      let p0 := pv.pressureSlot
      let p :=
        if pv.pm = PressureMeaning.Po then
          let so := 1 - sg - ssol
          let pC := env.capillaryPressures so (sg + ssol) 0
          p0 + (pC Phase.gas - pC Phase.oil)
        else p0
      let rvwSat := env.satWaterVaporizationFactor pv.pvtRegionIdx env.temperature p
        saltConcentration
      if rvw > rvwSat * (1 + eps) then
        ({ pv with wm := WaterMeaning.Sw, waterSlot := 0 }, true)
      else (pv, false)
  | .Rsw =>
      let pw := pv.pressureSlot
      let rswSat := env.satGasDissolutionFactorWater pv.pvtRegionIdx env.temperature pw
        saltConcentration
      let rsw := pv.waterSlot
      if rsw > rswSat then
        let pC := env.capillaryPressures 0 0 1
        let pg := pw + (pC Phase.gas - pC Phase.water)
        ({ pv with wm := WaterMeaning.Sw, waterSlot := 1,
                   pm := PressureMeaning.Pg, pressureSlot := pg }, true)
      else (pv, false)
  | .Disabled => (pv, false)

/-- The gas-meaning switch of `adaptPrimaryVariables` (lines 1253-1379). -/
def gasStep (cfg : PvCfg) (env : PvEnv) (pv : BlackOilPrimaryVariables)
    (sw sg eps : ℚ) : BlackOilPrimaryVariables × Bool :=
  match pv.gm with
  | .Sg =>
      let ssol := solventSaturation cfg pv
      let s := 1 - sw - ssol
      let step1 : BlackOilPrimaryVariables × Bool :=
        if sg < -eps ∧ s > 0 ∧ cfg.enableDissolvedGas = true then
          let po := pv.pressureSlot
          let soMax := max s env.maxOilSaturation
          let rsMax := env.maxGasDissolutionFactor
          let rsSat :=
            if cfg.enableExtbo then env.extboRs pv.pvtRegionIdx po (zFraction cfg pv)
            else env.satGasDissolutionFactorOil pv.pvtRegionIdx env.temperature po s soMax
          ({ pv with gm := GasMeaning.Rs, compSlot := min rsMax rsSat }, true)
        else (pv, false)
      let pv1 := step1.1
      let so := 1 - sw - ssol - sg
      if so < -eps ∧ sg > 0 ∧ cfg.enableVaporizedOil = true then
        let po := pv1.pressureSlot
        let pC := env.capillaryPressures 0 (sg + ssol) sw
        let pg := po + (pC Phase.gas - pC Phase.oil)
        let soMax := env.maxOilSaturation
        let rvMax := env.maxOilVaporizationFactor
        let rvSat :=
          if cfg.enableExtbo then env.extboRv pv1.pvtRegionIdx pg (zFraction cfg pv1)
          else env.satOilVaporizationFactor pv1.pvtRegionIdx env.temperature pg 0 soMax
        ({ pv1 with pm := PressureMeaning.Pg, pressureSlot := pg,
                    gm := GasMeaning.Rv, compSlot := min rvMax rvSat }, true)
      else step1
  | .Rs =>
      let ssol := solventSaturation cfg pv
      let po := pv.pressureSlot
      let so := 1 - sw - ssol
      let soMax := max so env.maxOilSaturation
      let rsMax := env.maxGasDissolutionFactor
      let rsSat :=
        if cfg.enableExtbo then env.extboRs pv.pvtRegionIdx po (zFraction cfg pv)
        else env.satGasDissolutionFactorOil pv.pvtRegionIdx env.temperature po so soMax
      let rs := pv.compSlot
      if rs > min rsMax (rsSat * (1 + eps)) then
        ({ pv with gm := GasMeaning.Sg, compSlot := 0 }, true)
      else (pv, false)
  | .Rv =>
      let ssol := solventSaturation cfg pv
      let pg := pv.pressureSlot
      let soMax := env.maxOilSaturation
      let rvMax := env.maxOilVaporizationFactor
      let rvSat :=
        if cfg.enableExtbo then env.extboRv pv.pvtRegionIdx pg (zFraction cfg pv)
        else env.satOilVaporizationFactor pv.pvtRegionIdx env.temperature pg 0 soMax
      let rv := pv.compSlot
      if rv > min rvMax (rvSat * (1 + eps)) then
        let sg2 := 1 - sw - ssol
        let pC := env.capillaryPressures 0 (sg2 + ssol) sw
        let po := pg + (pC Phase.oil - pC Phase.gas)
        ({ pv with gm := GasMeaning.Sg, pm := PressureMeaning.Po,
                   pressureSlot := po, compSlot := sg2 }, true)
      else (pv, false)
  | .Disabled => (pv, false)

/-- `adaptPrimaryVariables` (lines 1063-1381).  The C++ function-local static
`thresholdWaterFilledCell = 1.0 - eps` is threaded explicitly: `staticThr`
is its state before the call; the first component of the result is its state
afterwards (initialized from the current `eps` exactly on the first executed
call).  The remaining components are the updated primary-variable vector and
the returned `changed` flag. -/
def adaptPrimaryVariables (cfg : PvCfg) (env : PvEnv) (staticThr : Option ℚ)
    (pv : BlackOilPrimaryVariables) (eps : ℚ) :
    Option ℚ × BlackOilPrimaryVariables × Bool :=
  let thresholdWaterFilledCell :=
    match staticThr with
    | none => 1 - eps
    | some t => t
  let staticOut := some thresholdWaterFilledCell
  if pv.wm = WaterMeaning.Disabled ∧ pv.gm = GasMeaning.Disabled then
    (staticOut, pv, false)
  else
    let sw : ℚ := if pv.wm = WaterMeaning.Sw then pv.waterSlot else 0
    let sg0 : ℚ := if pv.gm = GasMeaning.Sg then pv.compSlot else 0
    let sg : ℚ := if pv.gm = GasMeaning.Disabled ∧ cfg.gasEnabled = true then 1 - sw else sg0
    let bs := brineStep cfg env pv eps
    let pv1 := bs.1
    let saltConcentration := bs.2
    if sw ≥ thresholdWaterFilledCell ∧ cfg.enableDissolvedGasInWater = false then
      let pv2 := if cfg.waterEnabled then { pv1 with waterSlot := 1 } else pv1
      let pv3 := if cfg.compositionSwitchEnabled then { pv2 with compSlot := 0 } else pv2
      let changed := pv1.gm ≠ GasMeaning.Sg
      let pv4 :=
        if changed ∧ cfg.compositionSwitchEnabled = true then
          { pv3 with gm := GasMeaning.Sg }
        else pv3
      (staticOut, pv4, changed)
    else
      let ws := waterStep cfg env pv1 sw sg saltConcentration eps
      let gs := gasStep cfg env ws.1 sw sg eps
      (staticOut, gs.1, ws.2 || gs.2)

/-- The clamp-and-rescale arithmetic of `chopAndNormalizeSaturations`
(lines 1399-1416): oil saturation is the remainder `1 - sw - sg - ssol`,
every saturation is clamped to `[0,1]`, the stored slots are divided by the
clamped sum, and the returned flag is whether that clamped sum differed
from one. -/
def chopCore (sw0 sg0 ssol0 : ℚ) : (ℚ × ℚ × ℚ) × Bool :=
  let so0 := 1 - sw0 - sg0 - ssol0
  let sw := min (max sw0 0) 1
  let so := min (max so0 0) 1
  let sg := min (max sg0 0) 1
  let ssol := min (max ssol0 0) 1
  let st := sw + so + sg + ssol
  ((sw / st, sg / st, ssol / st), !decide (st = 1))

/-- `chopAndNormalizeSaturations` (lines 1383-1417): read the active
saturation-meaning slots, clamp and rescale them, write them back, and
report whether rescaling was needed. -/
def chopAndNormalizeSaturations (cfg : PvCfg) (pv : BlackOilPrimaryVariables) :
    BlackOilPrimaryVariables × Bool :=
  if pv.wm = WaterMeaning.Disabled ∧ pv.gm = GasMeaning.Disabled then (pv, false)
  else
    let sw := if pv.wm = WaterMeaning.Sw then pv.waterSlot else 0
    let sg := if pv.gm = GasMeaning.Sg then pv.compSlot else 0
    let ssol := if cfg.enableSolvent then pv.solventSlot else 0
    let r := chopCore sw sg ssol
    let pv1 := if pv.wm = WaterMeaning.Sw then { pv with waterSlot := r.1.1 } else pv
    let pv2 := if pv.gm = GasMeaning.Sg then { pv1 with compSlot := r.1.2.1 } else pv1
    let pv3 := if cfg.enableSolvent then { pv2 with solventSlot := r.1.2.2 } else pv2
    (pv3, r.2)

theorem gasStep_preserves_water (cfg : PvCfg) (env : PvEnv)
    (pv : BlackOilPrimaryVariables) (sw sg eps : ℚ) :
    (gasStep cfg env pv sw sg eps).1.wm = pv.wm
    ∧ (gasStep cfg env pv sw sg eps).1.waterSlot = pv.waterSlot
    ∧ (gasStep cfg env pv sw sg eps).1.bm = pv.bm
    ∧ (gasStep cfg env pv sw sg eps).1.saltSlot = pv.saltSlot := by
  cases hgm : pv.gm <;> simp [gasStep, hgm] <;> split_ifs <;> simp

theorem gasStep_preserves_pressure_of_nonpos (cfg : PvCfg) (env : PvEnv)
    (pv : BlackOilPrimaryVariables) (sw sg eps : ℚ)
    (hgm : pv.gm = GasMeaning.Sg) (hsg : ¬(0 < sg)) :
    (gasStep cfg env pv sw sg eps).1.pm = pv.pm
    ∧ (gasStep cfg env pv sw sg eps).1.pressureSlot = pv.pressureSlot := by
  simp only [gasStep, hgm]
  split_ifs <;> simp_all

/-- C4. Gas-phase disappearance: on a cell with water meaning `Sw`, pressure
meaning `Pg`, gas meaning `Sg`, stored gas saturation below `-eps`, stored
water saturation above `eps` (and below the water-filled-cell threshold),
dissolved gas in water enabled and salt precipitation disabled,
`adaptPrimaryVariables` switches the water meaning to `Rsw` with the
saturated gas dissolution factor at the capillary-corrected water pressure
`pw = pg + (pC_water - pC_gas)` as new slot value, simultaneously switches
the pressure meaning to `Pw` with value `pw`, and returns `true`. -/
theorem adapt_gas_disappearance (cfg : PvCfg) (env : PvEnv) (staticThr : Option ℚ)
    (pv : BlackOilPrimaryVariables) (eps : ℚ)
    (heps : 0 ≤ eps)
    (hwm : pv.wm = WaterMeaning.Sw)
    (hpm : pv.pm = PressureMeaning.Pg)
    (hgm : pv.gm = GasMeaning.Sg)
    (hsg : pv.compSlot < -eps)
    (hsw : pv.waterSlot > eps)
    (hthr : pv.waterSlot < (match staticThr with | none => 1 - eps | some t => t))
    (hdgw : cfg.enableDissolvedGasInWater = true)
    (hsalt : cfg.enableSaltPrecipitation = false) :
    (adaptPrimaryVariables cfg env staticThr pv eps).2.1.wm = WaterMeaning.Rsw
    ∧ (adaptPrimaryVariables cfg env staticThr pv eps).2.1.waterSlot
        = env.satGasDissolutionFactorWater pv.pvtRegionIdx env.temperature
            (pv.pressureSlot
              + (env.capillaryPressures (1 - pv.waterSlot - solventSaturation cfg pv) 0
                   pv.waterSlot Phase.water
                 - env.capillaryPressures (1 - pv.waterSlot - solventSaturation cfg pv) 0
                   pv.waterSlot Phase.gas)) 0
    ∧ (adaptPrimaryVariables cfg env staticThr pv eps).2.1.pm = PressureMeaning.Pw
    ∧ (adaptPrimaryVariables cfg env staticThr pv eps).2.1.pressureSlot
        = pv.pressureSlot
            + (env.capillaryPressures (1 - pv.waterSlot - solventSaturation cfg pv) 0
                 pv.waterSlot Phase.water
               - env.capillaryPressures (1 - pv.waterSlot - solventSaturation cfg pv) 0
                 pv.waterSlot Phase.gas)
    ∧ (adaptPrimaryVariables cfg env staticThr pv eps).2.2 = true := by
  have hA : ¬(pv.waterSlot < -eps) := by linarith
  have hsgpos : ¬((0:ℚ) < pv.compSlot) := by linarith
  have hmain : (adaptPrimaryVariables cfg env staticThr pv eps).2
      = ((gasStep cfg env
            { pv with wm := WaterMeaning.Rsw,
                      waterSlot := env.satGasDissolutionFactorWater pv.pvtRegionIdx
                        env.temperature
                        (pv.pressureSlot
                          + (env.capillaryPressures
                               (1 - pv.waterSlot - solventSaturation cfg pv) 0
                               pv.waterSlot Phase.water
                             - env.capillaryPressures
                               (1 - pv.waterSlot - solventSaturation cfg pv) 0
                               pv.waterSlot Phase.gas)) 0,
                      pm := PressureMeaning.Pw,
                      pressureSlot := pv.pressureSlot
                        + (env.capillaryPressures
                             (1 - pv.waterSlot - solventSaturation cfg pv) 0
                             pv.waterSlot Phase.water
                           - env.capillaryPressures
                             (1 - pv.waterSlot - solventSaturation cfg pv) 0
                             pv.waterSlot Phase.gas) }
            pv.waterSlot pv.compSlot eps).1,
          true || (gasStep cfg env
            { pv with wm := WaterMeaning.Rsw,
                      waterSlot := env.satGasDissolutionFactorWater pv.pvtRegionIdx
                        env.temperature
                        (pv.pressureSlot
                          + (env.capillaryPressures
                               (1 - pv.waterSlot - solventSaturation cfg pv) 0
                               pv.waterSlot Phase.water
                             - env.capillaryPressures
                               (1 - pv.waterSlot - solventSaturation cfg pv) 0
                               pv.waterSlot Phase.gas)) 0,
                      pm := PressureMeaning.Pw,
                      pressureSlot := pv.pressureSlot
                        + (env.capillaryPressures
                             (1 - pv.waterSlot - solventSaturation cfg pv) 0
                             pv.waterSlot Phase.water
                           - env.capillaryPressures
                             (1 - pv.waterSlot - solventSaturation cfg pv) 0
                             pv.waterSlot Phase.gas) }
            pv.waterSlot pv.compSlot eps).2) := by
    simp [adaptPrimaryVariables, waterStep, brineStep, hwm, hgm, hpm, hdgw, hsalt,
      hsg, hsw, hA]
  set W : BlackOilPrimaryVariables :=
    { pv with wm := WaterMeaning.Rsw,
              waterSlot := env.satGasDissolutionFactorWater pv.pvtRegionIdx
                env.temperature
                (pv.pressureSlot
                  + (env.capillaryPressures
                       (1 - pv.waterSlot - solventSaturation cfg pv) 0
                       pv.waterSlot Phase.water
                     - env.capillaryPressures
                       (1 - pv.waterSlot - solventSaturation cfg pv) 0
                       pv.waterSlot Phase.gas)) 0,
              pm := PressureMeaning.Pw,
              pressureSlot := pv.pressureSlot
                + (env.capillaryPressures
                     (1 - pv.waterSlot - solventSaturation cfg pv) 0
                     pv.waterSlot Phase.water
                   - env.capillaryPressures
                     (1 - pv.waterSlot - solventSaturation cfg pv) 0
                     pv.waterSlot Phase.gas) } with hW
  have hWg : W.gm = GasMeaning.Sg := by rw [hW]; exact hgm
  have hpres := gasStep_preserves_water cfg env W pv.waterSlot pv.compSlot eps
  have hpres2 := gasStep_preserves_pressure_of_nonpos cfg env W pv.waterSlot pv.compSlot eps
    hWg hsgpos
  refine ⟨?_, ?_, ?_, ?_, ?_⟩
  · rw [show (adaptPrimaryVariables cfg env staticThr pv eps).2.1
        = ((adaptPrimaryVariables cfg env staticThr pv eps).2).1 from rfl, hmain]
    simp [hpres.1, hW]
  · rw [show (adaptPrimaryVariables cfg env staticThr pv eps).2.1
        = ((adaptPrimaryVariables cfg env staticThr pv eps).2).1 from rfl, hmain]
    simp [hpres.2.1, hW]
  · rw [show (adaptPrimaryVariables cfg env staticThr pv eps).2.1
        = ((adaptPrimaryVariables cfg env staticThr pv eps).2).1 from rfl, hmain]
    simp [hpres2.1, hW]
  · rw [show (adaptPrimaryVariables cfg env staticThr pv eps).2.1
        = ((adaptPrimaryVariables cfg env staticThr pv eps).2).1 from rfl, hmain]
    simp [hpres2.2, hW]
  · rw [show (adaptPrimaryVariables cfg env staticThr pv eps).2.2
        = ((adaptPrimaryVariables cfg env staticThr pv eps).2).2 from rfl, hmain]
    simp

theorem brineStep_preserves (cfg : PvCfg) (env : PvEnv)
    (pv : BlackOilPrimaryVariables) (eps : ℚ) :
    (brineStep cfg env pv eps).1.wm = pv.wm
    ∧ (brineStep cfg env pv eps).1.pm = pv.pm
    ∧ (brineStep cfg env pv eps).1.gm = pv.gm
    ∧ (brineStep cfg env pv eps).1.waterSlot = pv.waterSlot
    ∧ (brineStep cfg env pv eps).1.compSlot = pv.compSlot
    ∧ (brineStep cfg env pv eps).1.pressureSlot = pv.pressureSlot
    ∧ (brineStep cfg env pv eps).1.solventSlot = pv.solventSlot := by
  cases hbm : pv.bm <;> simp [brineStep, hbm] <;> split_ifs <;> simp

/-- C5. Water-filled cell short-circuit: when the effective threshold is
`1 - eps` (the static was initialized by this call or holds that value), the
water meaning is `Sw`, the stored water saturation is at least `1 - eps`,
dissolved gas in water is not modeled, and the water and composition slots
exist, `adaptPrimaryVariables` sets the water slot to exactly 1, the
hydrocarbon-gas slot to exactly 0, forces the gas meaning to `Sg`, leaves
the water and pressure meanings untouched (short-circuiting the switching
cascades), and returns `true` iff the gas meaning before the call was not
`Sg`. -/
theorem adapt_waterFilled_shortCircuit (cfg : PvCfg) (env : PvEnv)
    (staticThr : Option ℚ) (pv : BlackOilPrimaryVariables) (eps : ℚ)
    (hthr : staticThr = none ∨ staticThr = some (1 - eps))
    (hwm : pv.wm = WaterMeaning.Sw)
    (hsw : 1 - eps ≤ pv.waterSlot)
    (hdgw : cfg.enableDissolvedGasInWater = false)
    (hwe : cfg.waterEnabled = true)
    (hcs : cfg.compositionSwitchEnabled = true) :
    (adaptPrimaryVariables cfg env staticThr pv eps).2.1.waterSlot = 1
    ∧ (adaptPrimaryVariables cfg env staticThr pv eps).2.1.compSlot = 0
    ∧ (adaptPrimaryVariables cfg env staticThr pv eps).2.1.gm = GasMeaning.Sg
    ∧ (adaptPrimaryVariables cfg env staticThr pv eps).2.1.wm = pv.wm
    ∧ (adaptPrimaryVariables cfg env staticThr pv eps).2.1.pm = pv.pm
    ∧ ((adaptPrimaryVariables cfg env staticThr pv eps).2.2 = true
        ↔ pv.gm ≠ GasMeaning.Sg) := by
  have hb := brineStep_preserves cfg env pv eps
  rcases hthr with h | h <;> subst h <;>
    by_cases hgmSg : (brineStep cfg env pv eps).1.gm = GasMeaning.Sg <;>
    simp_all [adaptPrimaryVariables, hwm, hsw, hdgw, hwe, hcs]

/-- Concrete oracle environment used by the switching-logic witnesses. -/
def exPvEnv : PvEnv :=
  { temperature := 300
    capillaryPressures := fun _ _ _ _ => 0
    satWaterVaporizationFactor := fun _ _ _ _ => 7
    satGasDissolutionFactorWater := fun _ _ _ _ => 5
    satGasDissolutionFactorOil := fun _ _ _ _ _ => 4
    satOilVaporizationFactor := fun _ _ _ _ _ => 3
    extboRs := fun _ _ _ => 0
    extboRv := fun _ _ _ => 0
    maxOilSaturation := 1
    maxGasDissolutionFactor := 10
    maxOilVaporizationFactor := 10
    saltSol := fun _ => 1 }

/-- Configuration for the gas-disappearance witness: three-phase model with
dissolved gas in water enabled. -/
def c4cfg : PvCfg :=
  { waterEnabled := true, gasEnabled := true, oilEnabled := true
    compositionSwitchEnabled := true, enableSolvent := false, enableExtbo := false
    enableSaltPrecipitation := false, enableDissolvedGas := true
    enableDissolvedGasInWater := true, enableVaporizedOil := false
    enableVaporizedWater := false }

/-- Cell state for the gas-disappearance witness: water meaning `Sw`,
pressure meaning `Pg`, gas meaning `Sg`, negative stored gas saturation. -/
def c4pv : BlackOilPrimaryVariables :=
  { waterSlot := 2, pressureSlot := 100, compSlot := -2
    saltSlot := 0, solventSlot := 0, zSlot := 0
    wm := WaterMeaning.Sw, pm := PressureMeaning.Pg, gm := GasMeaning.Sg
    bm := BrineMeaning.Disabled, pvtRegionIdx := 0 }

theorem adapt_gas_disappearance_witness :
    ((0:ℚ) ≤ 1 ∧ c4pv.compSlot < -1 ∧ c4pv.waterSlot > 1 ∧ c4pv.waterSlot < 100)
    ∧ ((adaptPrimaryVariables c4cfg exPvEnv (some 100) c4pv 1).2.1.wm = WaterMeaning.Rsw
      ∧ (adaptPrimaryVariables c4cfg exPvEnv (some 100) c4pv 1).2.1.waterSlot
          = exPvEnv.satGasDissolutionFactorWater c4pv.pvtRegionIdx exPvEnv.temperature
              (c4pv.pressureSlot
                + (exPvEnv.capillaryPressures
                     (1 - c4pv.waterSlot - solventSaturation c4cfg c4pv) 0
                     c4pv.waterSlot Phase.water
                   - exPvEnv.capillaryPressures
                     (1 - c4pv.waterSlot - solventSaturation c4cfg c4pv) 0
                     c4pv.waterSlot Phase.gas)) 0
      ∧ (adaptPrimaryVariables c4cfg exPvEnv (some 100) c4pv 1).2.1.pm = PressureMeaning.Pw
      ∧ (adaptPrimaryVariables c4cfg exPvEnv (some 100) c4pv 1).2.1.pressureSlot
          = c4pv.pressureSlot
              + (exPvEnv.capillaryPressures
                   (1 - c4pv.waterSlot - solventSaturation c4cfg c4pv) 0
                   c4pv.waterSlot Phase.water
                 - exPvEnv.capillaryPressures
                   (1 - c4pv.waterSlot - solventSaturation c4cfg c4pv) 0
                   c4pv.waterSlot Phase.gas)
      ∧ (adaptPrimaryVariables c4cfg exPvEnv (some 100) c4pv 1).2.2 = true) :=
  ⟨⟨by decide, by decide, by decide, by decide⟩,
    adapt_gas_disappearance c4cfg exPvEnv (some 100) c4pv 1 (by decide) rfl rfl rfl
      (by decide) (by decide) (by decide) rfl rfl⟩

/-- Configuration for the water-filled-cell witness: dissolved gas in water
not modeled. -/
def c5cfg : PvCfg :=
  { waterEnabled := true, gasEnabled := true, oilEnabled := true
    compositionSwitchEnabled := true, enableSolvent := false, enableExtbo := false
    enableSaltPrecipitation := false, enableDissolvedGas := true
    enableDissolvedGasInWater := false, enableVaporizedOil := false
    enableVaporizedWater := false }

/-- Cell state for the water-filled-cell witness: almost pure water with the
gas slot still interpreted as `Rs`. -/
def c5pv : BlackOilPrimaryVariables :=
  { waterSlot := 1, pressureSlot := 100, compSlot := 2
    saltSlot := 0, solventSlot := 0, zSlot := 0
    wm := WaterMeaning.Sw, pm := PressureMeaning.Po, gm := GasMeaning.Rs
    bm := BrineMeaning.Disabled, pvtRegionIdx := 0 }

theorem adapt_waterFilled_shortCircuit_witness :
    ((1:ℚ) - 0 ≤ c5pv.waterSlot ∧ c5cfg.enableDissolvedGasInWater = false)
    ∧ ((adaptPrimaryVariables c5cfg exPvEnv none c5pv 0).2.1.waterSlot = 1
      ∧ (adaptPrimaryVariables c5cfg exPvEnv none c5pv 0).2.1.compSlot = 0
      ∧ (adaptPrimaryVariables c5cfg exPvEnv none c5pv 0).2.1.gm = GasMeaning.Sg
      ∧ (adaptPrimaryVariables c5cfg exPvEnv none c5pv 0).2.1.wm = c5pv.wm
      ∧ (adaptPrimaryVariables c5cfg exPvEnv none c5pv 0).2.1.pm = c5pv.pm
      ∧ ((adaptPrimaryVariables c5cfg exPvEnv none c5pv 0).2.2 = true
          ↔ c5pv.gm ≠ GasMeaning.Sg)) :=
  ⟨⟨by simp [c5pv], rfl⟩,
    adapt_waterFilled_shortCircuit c5cfg exPvEnv none c5pv 0 (Or.inl rfl) rfl
      (by simp [c5pv]) rfl rfl rfl⟩

/-- Configuration exhibiting the unreported brine transition: salt
precipitation enabled in a standard three-phase setting. -/
def c6cfg : PvCfg :=
  { waterEnabled := true, gasEnabled := true, oilEnabled := true
    compositionSwitchEnabled := true, enableSolvent := false, enableExtbo := false
    enableSaltPrecipitation := true, enableDissolvedGas := false
    enableDissolvedGasInWater := false, enableVaporizedOil := false
    enableVaporizedWater := false }

/-- Cell state whose only transition is the brine meaning `Sp -> Cs`
(negative precipitated-salt saturation); no water or gas transition fires. -/
def c6pv : BlackOilPrimaryVariables :=
  { waterSlot := 0, pressureSlot := 100, compSlot := 0
    saltSlot := -1, solventSlot := 0, zSlot := 0
    wm := WaterMeaning.Sw, pm := PressureMeaning.Po, gm := GasMeaning.Sg
    bm := BrineMeaning.Sp, pvtRegionIdx := 0 }

/-- C6 (refuted as stated): at `c6pv` the brine meaning switches from `Sp` to
`Cs` during the call, yet `adaptPrimaryVariables` returns `false` — the
return value does not report brine-meaning changes, contradicting the
function's own documentation ("true iff the interpretation of one of the
switching variables was changed"). -/
theorem adapt_brine_change_unreported :
    (adaptPrimaryVariables c6cfg exPvEnv (some 1) c6pv 0).2.2 = false
    ∧ (adaptPrimaryVariables c6cfg exPvEnv (some 1) c6pv 0).2.1.bm = BrineMeaning.Cs
    ∧ c6pv.bm = BrineMeaning.Sp := by
  refine ⟨?_, ?_, rfl⟩ <;>
    simp [adaptPrimaryVariables, brineStep, waterStep, gasStep, c6cfg, c6pv, exPvEnv,
      show ¬((1:ℚ) ≤ 0) from by decide]

/-- Two-phase water-gas configuration without a composition switch slot
(`compositionSwitchIdx < 0`): the gas meaning stays `Disabled`. -/
def c8cfg : PvCfg :=
  { waterEnabled := true, gasEnabled := true, oilEnabled := false
    compositionSwitchEnabled := false, enableSolvent := false, enableExtbo := false
    enableSaltPrecipitation := false, enableDissolvedGas := false
    enableDissolvedGasInWater := false, enableVaporizedOil := false
    enableVaporizedWater := false }

/-- Fully water-filled cell of the water-gas model. -/
def c8pv : BlackOilPrimaryVariables :=
  { waterSlot := 1, pressureSlot := 100, compSlot := 0
    saltSlot := 0, solventSlot := 0, zSlot := 0
    wm := WaterMeaning.Sw, pm := PressureMeaning.Pw, gm := GasMeaning.Disabled
    bm := BrineMeaning.Disabled, pvtRegionIdx := 0 }

/-- C8 (refuted as stated): on the water-gas configuration `c8cfg`/`c8pv` the
first call leaves the state unchanged and returns `true`, and the second
call on the unchanged state (with the now-initialized static threshold)
returns `true` again — the water-filled short-circuit computes
`changed = (gasMeaning != Sg)` even though the gas meaning is permanently
`Disabled`, so `adaptPrimaryVariables` is not idempotent and contradicts its
own documented return contract. -/
theorem adapt_not_idempotent_waterGas :
    (adaptPrimaryVariables c8cfg exPvEnv none c8pv 0).2.2 = true
    ∧ (adaptPrimaryVariables c8cfg exPvEnv none c8pv 0).2.1 = c8pv
    ∧ (adaptPrimaryVariables c8cfg exPvEnv none c8pv 0).1 = some 1
    ∧ (adaptPrimaryVariables c8cfg exPvEnv
        (adaptPrimaryVariables c8cfg exPvEnv none c8pv 0).1
        (adaptPrimaryVariables c8cfg exPvEnv none c8pv 0).2.1 0).2.2 = true := by
  refine ⟨?_, ?_, ?_, ?_⟩ <;>
    simp [adaptPrimaryVariables, brineStep, waterStep, gasStep, c8cfg, c8pv, exPvEnv]

theorem chopCore_st_pos (sw0 sg0 ssol0 : ℚ) :
    0 < min (max sw0 0) 1 + min (max (1 - sw0 - sg0 - ssol0) 0) 1
        + min (max sg0 0) 1 + min (max ssol0 0) 1 := by
  have hw0 : 0 ≤ min (max sw0 0) 1 := le_min (le_max_right _ _) zero_le_one
  have hg0 : 0 ≤ min (max sg0 0) 1 := le_min (le_max_right _ _) zero_le_one
  have hs0 : 0 ≤ min (max ssol0 0) 1 := le_min (le_max_right _ _) zero_le_one
  have ho0 : 0 ≤ min (max (1 - sw0 - sg0 - ssol0) 0) 1 :=
    le_min (le_max_right _ _) zero_le_one
  by_cases h : sw0 ≤ 0 ∧ sg0 ≤ 0 ∧ ssol0 ≤ 0
  · have hso : (1:ℚ) ≤ 1 - sw0 - sg0 - ssol0 := by
      rcases h with ⟨h1, h2, h3⟩; linarith
    have : min (max (1 - sw0 - sg0 - ssol0) 0) 1 = 1 := by
      rw [max_eq_left (by linarith), min_eq_right (by linarith)]
    linarith
  · push_neg at h
    rcases le_or_lt sw0 0 with h1 | h1
    · rcases le_or_lt sg0 0 with h2 | h2
      · have h3 := h h1 h2
        have : 0 < min (max ssol0 0) 1 :=
          lt_min (by rw [max_eq_left h3.le]; exact h3) one_pos
        linarith
      · have : 0 < min (max sg0 0) 1 :=
          lt_min (by rw [max_eq_left h2.le]; exact h2) one_pos
        linarith
    · have : 0 < min (max sw0 0) 1 :=
        lt_min (by rw [max_eq_left h1.le]; exact h1) one_pos
      linarith

/-- What `chopCore` computes, with the clamped sum and the implied oil
saturation made explicit: every normalized saturation (including the implied
oil remainder) lies in `[0,1]`, the four sum to exactly 1, and the returned
flag holds iff the clamped (pre-normalization) sum differed from 1. -/
theorem chopCore_spec (sw0 sg0 ssol0 : ℚ) :
    (0 ≤ (chopCore sw0 sg0 ssol0).1.1 ∧ (chopCore sw0 sg0 ssol0).1.1 ≤ 1)
    ∧ (0 ≤ (chopCore sw0 sg0 ssol0).1.2.1 ∧ (chopCore sw0 sg0 ssol0).1.2.1 ≤ 1)
    ∧ (0 ≤ (chopCore sw0 sg0 ssol0).1.2.2 ∧ (chopCore sw0 sg0 ssol0).1.2.2 ≤ 1)
    ∧ (0 ≤ 1 - (chopCore sw0 sg0 ssol0).1.1 - (chopCore sw0 sg0 ssol0).1.2.1
          - (chopCore sw0 sg0 ssol0).1.2.2
        ∧ 1 - (chopCore sw0 sg0 ssol0).1.1 - (chopCore sw0 sg0 ssol0).1.2.1
          - (chopCore sw0 sg0 ssol0).1.2.2 ≤ 1)
    ∧ ((chopCore sw0 sg0 ssol0).1.1 + (chopCore sw0 sg0 ssol0).1.2.1
        + (chopCore sw0 sg0 ssol0).1.2.2
        + (1 - (chopCore sw0 sg0 ssol0).1.1 - (chopCore sw0 sg0 ssol0).1.2.1
            - (chopCore sw0 sg0 ssol0).1.2.2) = 1)
    ∧ ((chopCore sw0 sg0 ssol0).2 = true
        ↔ min (max sw0 0) 1 + min (max (1 - sw0 - sg0 - ssol0) 0) 1
            + min (max sg0 0) 1 + min (max ssol0 0) 1 ≠ 1) := by
  have hw0 : 0 ≤ min (max sw0 0) 1 := le_min (le_max_right _ _) zero_le_one
  have hg0 : 0 ≤ min (max sg0 0) 1 := le_min (le_max_right _ _) zero_le_one
  have hs0 : 0 ≤ min (max ssol0 0) 1 := le_min (le_max_right _ _) zero_le_one
  have ho0 : 0 ≤ min (max (1 - sw0 - sg0 - ssol0) 0) 1 :=
    le_min (le_max_right _ _) zero_le_one
  have hst := chopCore_st_pos sw0 sg0 ssol0
  have hr : chopCore sw0 sg0 ssol0 =
      ((min (max sw0 0) 1
          / (min (max sw0 0) 1 + min (max (1 - sw0 - sg0 - ssol0) 0) 1
             + min (max sg0 0) 1 + min (max ssol0 0) 1),
        min (max sg0 0) 1
          / (min (max sw0 0) 1 + min (max (1 - sw0 - sg0 - ssol0) 0) 1
             + min (max sg0 0) 1 + min (max ssol0 0) 1),
        min (max ssol0 0) 1
          / (min (max sw0 0) 1 + min (max (1 - sw0 - sg0 - ssol0) 0) 1
             + min (max sg0 0) 1 + min (max ssol0 0) 1)),
       !decide ((min (max sw0 0) 1 + min (max (1 - sw0 - sg0 - ssol0) 0) 1
             + min (max sg0 0) 1 + min (max ssol0 0) 1) = 1)) := by
    rfl
  rw [hr]
  set cw := min (max sw0 0) 1
  set cso := min (max (1 - sw0 - sg0 - ssol0) 0) 1
  set cg := min (max sg0 0) 1
  set cs := min (max ssol0 0) 1
  set st := cw + cso + cg + cs with hstdef
  have hstne : st ≠ 0 := ne_of_gt hst
  have hrem : 1 - cw / st - cg / st - cs / st = cso / st := by
    field_simp
    ring
  refine ⟨⟨div_nonneg hw0 hst.le, ?_⟩, ⟨div_nonneg hg0 hst.le, ?_⟩,
    ⟨div_nonneg hs0 hst.le, ?_⟩, ⟨?_, ?_⟩, by ring, ?_⟩
  · exact (div_le_one hst).mpr (by linarith)
  · exact (div_le_one hst).mpr (by linarith)
  · exact (div_le_one hst).mpr (by linarith)
  · rw [hrem]; exact div_nonneg ho0 hst.le
  · rw [hrem]; exact (div_le_one hst).mpr (by linarith)
  · simp

/-- C7 (amended). On a cell whose water and gas slots carry saturations,
`chopAndNormalizeSaturations` leaves the four saturations — water, gas,
solvent and the implied oil remainder — each in `[0,1]` and summing to
exactly 1, and returns `true` iff the clamped (pre-normalization) sum of the
four saturations differed from 1. -/
theorem chopAndNormalizeSaturations_spec (cfg : PvCfg) (pv : BlackOilPrimaryVariables)
    (hwm : pv.wm = WaterMeaning.Sw) (hgm : pv.gm = GasMeaning.Sg) :
    (0 ≤ (chopAndNormalizeSaturations cfg pv).1.waterSlot
      ∧ (chopAndNormalizeSaturations cfg pv).1.waterSlot ≤ 1)
    ∧ (0 ≤ (chopAndNormalizeSaturations cfg pv).1.compSlot
      ∧ (chopAndNormalizeSaturations cfg pv).1.compSlot ≤ 1)
    ∧ (0 ≤ (if cfg.enableSolvent then (chopAndNormalizeSaturations cfg pv).1.solventSlot else 0)
      ∧ (if cfg.enableSolvent then (chopAndNormalizeSaturations cfg pv).1.solventSlot else 0) ≤ 1)
    ∧ (0 ≤ 1 - (chopAndNormalizeSaturations cfg pv).1.waterSlot
          - (chopAndNormalizeSaturations cfg pv).1.compSlot
          - (if cfg.enableSolvent then (chopAndNormalizeSaturations cfg pv).1.solventSlot else 0)
      ∧ 1 - (chopAndNormalizeSaturations cfg pv).1.waterSlot
          - (chopAndNormalizeSaturations cfg pv).1.compSlot
          - (if cfg.enableSolvent then (chopAndNormalizeSaturations cfg pv).1.solventSlot else 0)
          ≤ 1)
    ∧ ((chopAndNormalizeSaturations cfg pv).1.waterSlot
        + (chopAndNormalizeSaturations cfg pv).1.compSlot
        + (if cfg.enableSolvent then (chopAndNormalizeSaturations cfg pv).1.solventSlot else 0)
        + (1 - (chopAndNormalizeSaturations cfg pv).1.waterSlot
            - (chopAndNormalizeSaturations cfg pv).1.compSlot
            - (if cfg.enableSolvent then (chopAndNormalizeSaturations cfg pv).1.solventSlot
               else 0)) = 1)
    ∧ ((chopAndNormalizeSaturations cfg pv).2 = true
        ↔ min (max pv.waterSlot 0) 1
            + min (max (1 - pv.waterSlot - pv.compSlot
                - (if cfg.enableSolvent then pv.solventSlot else 0)) 0) 1
            + min (max pv.compSlot 0) 1
            + min (max (if cfg.enableSolvent then pv.solventSlot else 0) 0) 1 ≠ 1) := by
  by_cases hsol : cfg.enableSolvent = true
  · have hc := chopCore_spec pv.waterSlot pv.compSlot pv.solventSlot
    simp only [chopAndNormalizeSaturations, hwm, hgm, hsol] at hc ⊢
    simp only [if_true, ite_true]
    simp_all
    try constructor
    all_goals linarith [hc.2.2.2.1.1, hc.2.2.2.1.2]
  · have hc := chopCore_spec pv.waterSlot pv.compSlot 0
    simp only [chopAndNormalizeSaturations, hwm, hgm, hsol] at hc ⊢
    simp_all
    try constructor
    all_goals linarith [hc.2.2.2.1.1, hc.2.2.2.1.2]

/-- Three-phase configuration without solvent for the chop counterexample and
witness. -/
def c7cfg : PvCfg :=
  { waterEnabled := true, gasEnabled := true, oilEnabled := true
    compositionSwitchEnabled := true, enableSolvent := false, enableExtbo := false
    enableSaltPrecipitation := false, enableDissolvedGas := true
    enableDissolvedGasInWater := false, enableVaporizedOil := false
    enableVaporizedWater := false }

/-- Saturation-meaning cell whose water and gas slots overshoot to 2 each
(implied oil saturation is then `-3`, and the pre-clamp sum of the four
saturations is still exactly 1). -/
def c7pv : BlackOilPrimaryVariables :=
  { waterSlot := 2, pressureSlot := 100, compSlot := 2
    saltSlot := 0, solventSlot := 0, zSlot := 0
    wm := WaterMeaning.Sw, pm := PressureMeaning.Po, gm := GasMeaning.Sg
    bm := BrineMeaning.Disabled, pvtRegionIdx := 0 }

/-- C7 counterexample: with oil taken as the remainder, the pre-clamp sum of
the four saturations is identically 1, so the claim ("returns true iff the
pre-clamp sum differed from 1") predicts `false`; at `c7pv` the pre-clamp sum
is 1 yet the function returns `true` (it reports on the post-clamp sum). -/
theorem chop_preClampSum_counterexample :
    (chopAndNormalizeSaturations c7cfg c7pv).2 = true
    ∧ c7pv.waterSlot + c7pv.compSlot + 0
        + (1 - c7pv.waterSlot - c7pv.compSlot - 0) = 1 := by
  constructor
  · simp [chopAndNormalizeSaturations, chopCore, c7cfg, c7pv,
      show (((1:ℚ) - 2 - 2) ⊔ 0) = 0 from by norm_num,
      show ¬((2:ℚ) ≤ 1) from by decide, show ((2:ℚ) ≠ 1) from by decide]
  · ring

theorem chopAndNormalizeSaturations_spec_witness :
    (c7pv.wm = WaterMeaning.Sw ∧ c7pv.gm = GasMeaning.Sg)
    ∧ ((0 ≤ (chopAndNormalizeSaturations c7cfg c7pv).1.waterSlot
      ∧ (chopAndNormalizeSaturations c7cfg c7pv).1.waterSlot ≤ 1)
    ∧ (0 ≤ (chopAndNormalizeSaturations c7cfg c7pv).1.compSlot
      ∧ (chopAndNormalizeSaturations c7cfg c7pv).1.compSlot ≤ 1)
    ∧ (0 ≤ (if c7cfg.enableSolvent then (chopAndNormalizeSaturations c7cfg c7pv).1.solventSlot
            else 0)
      ∧ (if c7cfg.enableSolvent then (chopAndNormalizeSaturations c7cfg c7pv).1.solventSlot
         else 0) ≤ 1)
    ∧ (0 ≤ 1 - (chopAndNormalizeSaturations c7cfg c7pv).1.waterSlot
          - (chopAndNormalizeSaturations c7cfg c7pv).1.compSlot
          - (if c7cfg.enableSolvent then (chopAndNormalizeSaturations c7cfg c7pv).1.solventSlot
             else 0)
      ∧ 1 - (chopAndNormalizeSaturations c7cfg c7pv).1.waterSlot
          - (chopAndNormalizeSaturations c7cfg c7pv).1.compSlot
          - (if c7cfg.enableSolvent then (chopAndNormalizeSaturations c7cfg c7pv).1.solventSlot
             else 0) ≤ 1)
    ∧ ((chopAndNormalizeSaturations c7cfg c7pv).1.waterSlot
        + (chopAndNormalizeSaturations c7cfg c7pv).1.compSlot
        + (if c7cfg.enableSolvent then (chopAndNormalizeSaturations c7cfg c7pv).1.solventSlot
           else 0)
        + (1 - (chopAndNormalizeSaturations c7cfg c7pv).1.waterSlot
            - (chopAndNormalizeSaturations c7cfg c7pv).1.compSlot
            - (if c7cfg.enableSolvent then (chopAndNormalizeSaturations c7cfg c7pv).1.solventSlot
               else 0)) = 1)
    ∧ ((chopAndNormalizeSaturations c7cfg c7pv).2 = true
        ↔ min (max c7pv.waterSlot 0) 1
            + min (max (1 - c7pv.waterSlot - c7pv.compSlot
                - (if c7cfg.enableSolvent then c7pv.solventSlot else 0)) 0) 1
            + min (max c7pv.compSlot 0) 1
            + min (max (if c7cfg.enableSolvent then c7pv.solventSlot else 0) 0) 1 ≠ 1)) :=
  ⟨⟨rfl, rfl⟩, chopAndNormalizeSaturations_spec c7cfg c7pv rfl rfl⟩

/-- C10. The water-filled-cell threshold is a function-local static: a call
with uninitialized static state initializes it to `1 - eps` from that call's
`eps`; a call with initialized state `some t` leaves it at `t` and compares
the water saturation against the frozen `t` — here demonstrated with
`t ≤ sw < 1 - eps`, so the current call's `eps` would not trigger the branch
yet the branch is taken (water slot forced to 1, return value
`gasMeaning ≠ Sg`). -/
theorem adapt_threshold_frozen (cfg : PvCfg) (env : PvEnv)
    (pv : BlackOilPrimaryVariables) (eps t : ℚ)
    (hwm : pv.wm = WaterMeaning.Sw)
    (ht : t ≤ pv.waterSlot)
    (hcur : pv.waterSlot < 1 - eps)
    (hdgw : cfg.enableDissolvedGasInWater = false)
    (hwe : cfg.waterEnabled = true) :
    (adaptPrimaryVariables cfg env none pv eps).1 = some (1 - eps)
    ∧ (adaptPrimaryVariables cfg env (some t) pv eps).1 = some t
    ∧ (adaptPrimaryVariables cfg env (some t) pv eps).2.1.waterSlot = 1
    ∧ ((adaptPrimaryVariables cfg env (some t) pv eps).2.2 = true
        ↔ pv.gm ≠ GasMeaning.Sg) := by
  have hb := brineStep_preserves cfg env pv eps
  refine ⟨?_, ?_, ?_, ?_⟩
  · simp only [adaptPrimaryVariables]
    split_ifs <;> rfl
  · simp only [adaptPrimaryVariables]
    split_ifs <;> rfl
  · by_cases hgmSg : (brineStep cfg env pv eps).1.gm = GasMeaning.Sg <;>
      by_cases hcs : cfg.compositionSwitchEnabled = true <;>
      simp_all [adaptPrimaryVariables, hwm, ht, hdgw, hwe]
  · by_cases hgmSg : (brineStep cfg env pv eps).1.gm = GasMeaning.Sg <;>
      by_cases hcs : cfg.compositionSwitchEnabled = true <;>
      simp_all [adaptPrimaryVariables, hwm, ht, hdgw, hwe]

/-- Cell for the frozen-threshold witness: zero water saturation, so the
fresh threshold `1 - eps = 1` would not trigger, but a frozen threshold of 0
does. -/
def c10pv : BlackOilPrimaryVariables :=
  { waterSlot := 0, pressureSlot := 100, compSlot := 0
    saltSlot := 0, solventSlot := 0, zSlot := 0
    wm := WaterMeaning.Sw, pm := PressureMeaning.Po, gm := GasMeaning.Rs
    bm := BrineMeaning.Disabled, pvtRegionIdx := 0 }

theorem adapt_threshold_frozen_witness :
    ((0:ℚ) ≤ c10pv.waterSlot ∧ c10pv.waterSlot < 1 - 0)
    ∧ ((adaptPrimaryVariables c5cfg exPvEnv none c10pv 0).1 = some (1 - 0)
      ∧ (adaptPrimaryVariables c5cfg exPvEnv (some 0) c10pv 0).1 = some 0
      ∧ (adaptPrimaryVariables c5cfg exPvEnv (some 0) c10pv 0).2.1.waterSlot = 1
      ∧ ((adaptPrimaryVariables c5cfg exPvEnv (some 0) c10pv 0).2.2 = true
          ↔ c10pv.gm ≠ GasMeaning.Sg)) :=
  ⟨⟨by decide, by simp [c10pv]⟩,
    adapt_threshold_frozen c5cfg exPvEnv c10pv 0 0 rfl (by decide) (by simp [c10pv]) rfl rfl⟩

end OpmVerify
